import Mathlib

/-!
Shallow embedding of the operation merge and conflict-resolution engine of
the sync worker (`worker.js`): domain state, the sixteen operation handlers,
the dedup/ordering stage, the merge orchestrator and the retention pruner.

Modelling conventions:
* JS numbers that hold currency amounts, quantities and timestamps are
  modelled as `Int` (the code only ever adds, subtracts, compares and
  floor-divides them); float/NaN edge behaviour is out of scope.
* `Math.floor(p * 0.10)` equals `p / 10` in `Int` (Euclidean division by a
  positive divisor floors), likewise `Math.floor(p * 0.90) = 9 * p / 10`.
* The roulette `roll` is a rational number; the cumulative probability
  table is embedded with exact rationals.
* JS object aliasing (several `find` pointers into `state.users`) is
  modelled by sequentially updating the first matching element of the list,
  which reproduces the in-place mutation order of the source.
* `generateId` (random in the source) is modelled as a deterministic
  function of a seed; the merge loop hands every operation a fresh seed.
  No property below depends on the concrete id strings.
* A handler that destructures `operation.data` when the client sent no
  `data` member throws a TypeError in JS; this is modelled by
  `ApplyResult.thrown`, which the merge orchestrator catches.
* Absent optional string fields are modelled as `""` and absent numeric
  fields as `0`, matching the `x || d` falsy-default idiom of the source.
-/

namespace Worker

/-- A user record (`state.users[i]`). -/
structure User where
  id : String
  name : String
  balance : Int
  streakCount : Int := 0
  lastMorningDate : String := ""
  passHash : String := ""
  deriving Repr, DecidableEq

/-- A marketplace listing (`state.listings[i]`). -/
structure Listing where
  id : String
  title : String := ""
  price : Int
  desc : String := ""
  sellerId : String
  active : Bool
  ts : Int := 0
  qty : Int
  sold : Int
  deriving Repr, DecidableEq

/-- An escrow right (`state.rights[i]`).  `rejectionCount` is `none` while
the field is absent from the JS object (`delete r.rejectionCount`). -/
structure Right where
  id : String
  listingId : String
  title : String := ""
  buyerId : String
  sellerId : String
  ts : Int := 0
  status : String
  executed : Bool := false
  rejectionCount : Option Int := none
  deriving Repr, DecidableEq

/-- A ledger transaction (`state.txs[i]`); fields that a given transaction
type does not set are defaulted. -/
structure Tx where
  id : String
  ts : Int
  type : String
  fromId : String := ""
  toId : String := ""
  amount : Int := 0
  listingId : String := ""
  title : String := ""
  memo : String := ""
  deriving Repr, DecidableEq

/-- An ephemeral notification (`state.notifications[i]`). -/
structure Notification where
  id : String
  timestamp : Int
  recipientId : String
  content : String
  type : String
  isHtml : Bool
  deriving Repr, DecidableEq

/-- The domain state held in a snapshot (`current.state`). -/
structure DomainState where
  users : List User
  txs : List Tx
  listings : List Listing
  rights : List Right
  notifications : List Notification
  vTick : Int
  deriving Repr, DecidableEq

/-- An operation payload (`operation.data`): the union of the fields the
sixteen handlers destructure.  Absent string fields are `""` (falsy),
absent numeric fields are `0`. -/
structure OpData where
  toId : String := ""
  amount : Int := 0
  memo : String := ""
  listingId : String := ""
  title : String := ""
  price : Int := 0
  desc : String := ""
  qty : Int := 0
  name : String := ""
  passHash : String := ""
  roll : Rat := 0
  rightId : String := ""
  action : String := ""
  recipientId : String := ""
  content : String := ""
  msgType : String := ""
  isHtml : Bool := false
  deriving Repr, DecidableEq

/-- A client-submitted operation.  `data = none` models a missing `data`
member (destructuring it throws); `silent` models `meta?.silent`. -/
structure Operation where
  id : String
  type : String
  data : Option OpData := none
  timestamp : Int
  userId : String := ""
  silent : Bool := false
  deriving Repr, DecidableEq

/-- A durable dedup-log record (`result.processedOps[i]`). -/
structure ProcessedOp where
  id : String
  timestamp : Int
  type : String
  userId : String
  deriving Repr, DecidableEq

/-- A conflict record. -/
structure Conflict where
  operationId : String
  type : String
  message : String
  timestamp : Int
  userId : String
  deriving Repr, DecidableEq

/-- The persisted snapshot (`current`). -/
structure Snapshot where
  state : DomainState
  lastUpdate : Int := 0
  processedOps : List ProcessedOp
  conflicts : List Conflict
  deriving Repr, DecidableEq

/-- The structured outcome a handler returns. -/
structure Outcome where
  conflict : Bool
  conflictType : String := ""
  message : String := ""
  createdUser : Option User := none
  createdTxs : List Tx := []
  createdRight : Option Right := none
  updatedRight : Option Right := none
  updatedListing : Option Listing := none
  deletedListingId : Option String := none
  payout : Option Int := none
  deriving Repr, DecidableEq

/-- Applying one operation either throws (caught by the orchestrator) or
yields the mutated state together with the handler's outcome. -/
inductive ApplyResult where
  | thrown (msg : String)
  | ok (state : DomainState) (outcome : Outcome)
  deriving Repr, DecidableEq

/-- JS falsy-default `x || d` on numbers (only `0` is falsy here). -/
def jsOrInt (x d : Int) : Int := if x = 0 then d else x

/-- `generateId()` modelled deterministically from a seed. -/
def generateId (seed : Nat) : String := "gid" ++ toString seed

/-- The reserved name of the pooled house account. -/
def jackpotName : String := "ジャックポット"

/-- Update the first element satisfying `p` (JS `find` + in-place mutation). -/
def updFirst (p : α → Bool) (f : α → α) : List α → List α
  | [] => []
  | x :: xs => if p x then f x :: xs else x :: updFirst p f xs

/-- `state.users.find(u => u.id === uid)`. -/
def findUserById (users : List User) (uid : String) : Option User :=
  users.find? (fun u => u.id == uid)

/-- `state.users.find(u => u.name === 'ジャックポット')`. -/
def findJackpot (users : List User) : Option User :=
  users.find? (fun u => u.name == jackpotName)

/-- Balance of the first user matching `p`, `0` if none (never hit on the
paths the source takes). -/
def balOf (users : List User) (p : User → Bool) : Int :=
  ((users.find? p).map (fun u => u.balance)).getD 0

/-- Add `d` to the balance of the first user satisfying `p`. -/
def credit (p : User → Bool) (d : Int) (users : List User) : List User :=
  updFirst p (fun u => { u with balance := u.balance + d }) users

/-- A conflict outcome (the handler returns before mutating anything). -/
def conflictOut (t m : String) : Outcome :=
  { conflict := true, conflictType := t, message := m }

/-- Message of the TypeError raised when a handler destructures a missing
`operation.data`. -/
def destructureErr : String := "Cannot destructure 'data' as it is undefined."

/-- Civil-from-days (Hinnant): days since 1970-01-01 to (year, month, day);
embeds the UTC calendar arithmetic of `Date.prototype.toISOString`. -/
def civilFromDays (z0 : Int) : Int × Int × Int :=
  let z := z0 + 719468
  let era := z.fdiv 146097
  let doe := z - era * 146097
  let yoe := (doe - doe.fdiv 1460 + doe.fdiv 36524 - doe.fdiv 146096).fdiv 365
  let y := yoe + era * 400
  let doy := doe - (365 * yoe + yoe.fdiv 4 - yoe.fdiv 100)
  let mp := (5 * doy + 2).fdiv 153
  let d := doy - (153 * mp + 2).fdiv 5 + 1
  let m := mp + (if mp < 10 then 3 else -9)
  (y + (if m ≤ 2 then 1 else 0), m, d)

/-- Days-from-civil (Hinnant), inverse direction used when reparsing a
stored `yyyy-mm-dd` string. -/
def daysFromCivil (y0 m d : Int) : Int :=
  let y := y0 - (if m ≤ 2 then 1 else 0)
  let era := y.fdiv 400
  let yoe := y - era * 400
  let doy := (153 * (m + (if 2 < m then -3 else 9)) + 2).fdiv 5 + d - 1
  let doe := yoe * 365 + yoe.fdiv 4 - yoe.fdiv 100 + doy
  era * 146097 + doe - 719468

/-- Zero-pad to two digits. -/
def pad2 (n : Int) : String :=
  if n < 10 then "0" ++ toString n else toString n

/-- Zero-pad to four digits. -/
def pad4 (n : Int) : String :=
  if n < 10 then "000" ++ toString n
  else if n < 100 then "00" ++ toString n
  else if n < 1000 then "0" ++ toString n
  else toString n

/-- `new Date(ts).toISOString().split('T')[0]`. -/
def toISODate (ts : Int) : String :=
  let c := civilFromDays (ts.fdiv 86400000)
  pad4 c.1 ++ "-" ++ pad2 c.2.1 ++ "-" ++ pad2 c.2.2

/-- Date-only parsing back to days since the epoch; `none` models the NaN
that `new Date(<malformed string>)` yields (and NaN compares false). -/
def parseISODate (s : String) : Option Int :=
  match s.splitOn "-" with
  | [ys, ms, ds] =>
    match ys.toNat?, ms.toNat?, ds.toNat? with
    | some y, some m, some d =>
      if 1 ≤ m ∧ m ≤ 12 ∧ 1 ≤ d ∧ d ≤ 31 then some (daysFromCivil y m d) else none
    | _, _, _ => none
  | _ => none

/-- `applySendMessage` — appends an ephemeral notification.  Note: the
source does not bump `vTick` here. -/
def applySendMessage (state : DomainState) (data? : Option OpData) (timestamp : Int)
    (seed : Nat) : ApplyResult :=
  match data? with
  | none => .thrown destructureErr
  | some data =>
    if data.recipientId == "" || data.content == "" || data.msgType == "" then
      .ok state (conflictOut "bad_request"
        "recipientId, content, and type are required for send_message.")
    else
      .ok { state with notifications := state.notifications ++
              [{ id := generateId seed, timestamp := timestamp,
                 recipientId := data.recipientId, content := data.content,
                 type := data.msgType, isHtml := data.isHtml }] }
         { conflict := false }

/-- `applyTransfer`. -/
def applyTransfer (state : DomainState) (data? : Option OpData) (timestamp : Int)
    (userId : String) (silent : Bool) (seed : Nat) : ApplyResult :=
  match data? with
  | none => .thrown destructureErr
  | some data =>
    match findUserById state.users userId, findUserById state.users data.toId with
    | some fromU, some _ =>
      if fromU.balance < data.amount then
        .ok state (conflictOut "insufficient_balance" "残高不足")
      else
        let users1 := credit (fun u => u.id == userId) (-data.amount) state.users
        let users2 := credit (fun u => u.id == data.toId) data.amount users1
        let tx : Tx := { id := generateId seed, ts := timestamp, type := "transfer",
                         fromId := userId, toId := data.toId, amount := data.amount,
                         memo := data.memo }
        .ok { state with users := users2,
                         txs := if silent then state.txs else tx :: state.txs,
                         vTick := jsOrInt state.vTick 0 + 1 }
           { conflict := false, createdTxs := if silent then [] else [tx] }
    | _, _ => .ok state (conflictOut "user_not_found" "送信者または受信者が見つかりません")

/-- `applyBuyListing`. -/
def applyBuyListing (state : DomainState) (data? : Option OpData) (timestamp : Int)
    (userId : String) (silent : Bool) (seed : Nat) : ApplyResult :=
  match data? with
  | none => .thrown destructureErr
  | some data =>
    match state.listings.find? (fun l => l.id == data.listingId && l.active) with
    | none => .ok state (conflictOut "listing_not_found" "出品が見つからないか既に停止中")
    | some listing =>
      match findUserById state.users userId with
      | none => .ok state (conflictOut "buyer_not_found" "購入者が見つかりません")
      | some buyer =>
        if jsOrInt listing.qty 1 - jsOrInt listing.sold 0 ≤ 0 then
          .ok state (conflictOut "sold_out" "在庫切れ")
        else if buyer.balance < listing.price then
          .ok state (conflictOut "insufficient_balance" "残高不足")
        else if listing.sellerId == userId then
          .ok state (conflictOut "self_purchase" "自分の出品は購入できません")
        else
          let fee := listing.price / 10
          let sellerReceive := listing.price - fee
          let users1 := credit (fun u => u.id == userId) (-listing.price) state.users
          let users2 := credit (fun u => u.id == listing.sellerId) sellerReceive users1
          let users3 := credit (fun u => u.name == jackpotName) fee users2
          let bump : Listing → Listing := fun l =>
            let newSold := jsOrInt l.sold 0 + 1
            { l with sold := newSold,
                     active := if l.qty ≤ newSold then false else l.active }
          let listings1 := updFirst (fun l => l.id == data.listingId && l.active)
            bump state.listings
          let createdRight : Right :=
            { id := generateId seed, listingId := listing.id, title := listing.title,
              buyerId := userId, sellerId := listing.sellerId, ts := timestamp,
              status := "owned", executed := false }
          let tx : Tx := { id := generateId (seed + 1), ts := timestamp, type := "purchase",
                           fromId := userId, toId := listing.sellerId,
                           amount := listing.price, listingId := listing.id,
                           title := listing.title, memo := "権利購入（手数料10%）" }
          .ok { state with users := users3, listings := listings1,
                           rights := createdRight :: state.rights,
                           txs := if silent then state.txs else tx :: state.txs,
                           vTick := jsOrInt state.vTick 0 + 1 }
             { conflict := false, createdRight := some createdRight,
               createdTxs := if silent then [] else [tx],
               updatedListing := some (bump listing) }

/-- `applyCreateListing`. -/
def applyCreateListing (state : DomainState) (data? : Option OpData) (timestamp : Int)
    (userId : String) (seed : Nat) : ApplyResult :=
  match data? with
  | none => .thrown destructureErr
  | some data =>
    let newListing : Listing :=
      { id := generateId seed, title := data.title, price := data.price,
        desc := data.desc, sellerId := userId, active := true, ts := timestamp,
        qty := jsOrInt data.qty 1, sold := 0 }
    .ok { state with listings := newListing :: state.listings,
                     vTick := jsOrInt state.vTick 0 + 1 }
       { conflict := false, updatedListing := some newListing }

/-- `applyToggleListing` — flips `active` unconditionally. -/
def applyToggleListing (state : DomainState) (data? : Option OpData)
    (userId : String) : ApplyResult :=
  match data? with
  | none => .thrown destructureErr
  | some data =>
    match state.listings.find? (fun l => l.id == data.listingId) with
    | none => .ok state (conflictOut "listing_not_found" "出品が見つかりません")
    | some listing =>
      if listing.sellerId != userId then
        .ok state (conflictOut "not_owner" "自分の出品ではありません")
      else
        .ok { state with
                listings := updFirst (fun l => l.id == data.listingId)
                  (fun l => { l with active := !l.active }) state.listings,
                vTick := jsOrInt state.vTick 0 + 1 }
           { conflict := false }

/-- `applyDeleteListing`. -/
def applyDeleteListing (state : DomainState) (data? : Option OpData)
    (userId : String) : ApplyResult :=
  match data? with
  | none => .thrown destructureErr
  | some data =>
    match state.listings.find? (fun l => l.id == data.listingId) with
    | none => .ok state (conflictOut "listing_not_found" "出品が見つかりません")
    | some listing =>
      if listing.sellerId != userId then
        .ok state (conflictOut "not_owner" "自分の出品ではありません")
      else if 0 < jsOrInt listing.sold 0 then
        .ok state (conflictOut "has_sales" "購入履歴があるため削除できません")
      else
        .ok { state with
                listings := state.listings.eraseP (fun l => l.id == data.listingId),
                vTick := jsOrInt state.vTick 0 + 1 }
           { conflict := false, deletedListingId := some data.listingId }

/-- `applyRegisterUser`. -/
def applyRegisterUser (state : DomainState) (data? : Option OpData) (timestamp : Int)
    (silent : Bool) (seed : Nat) : ApplyResult :=
  match data? with
  | none => .thrown destructureErr
  | some data =>
    if state.users.any (fun u => u.name == data.name) then
      .ok state (conflictOut "name_taken" "そのユーザー名は既に使用されています")
    else
      let newUser : User := { id := generateId seed, name := data.name,
                              passHash := data.passHash, balance := 10000,
                              streakCount := 0, lastMorningDate := "" }
      let mintTx : Tx := { id := generateId (seed + 1), ts := timestamp, type := "mint",
                           toId := newUser.id, amount := 10000, memo := "初期発行" }
      .ok { state with users := state.users ++ [newUser],
                       txs := if silent then state.txs else mintTx :: state.txs,
                       vTick := jsOrInt state.vTick 0 + 1 }
         { conflict := false, createdUser := some newUser,
           createdTxs := if silent then [] else [mintTx] }

/-- `applyMorningClaim` — the handler never reads `data`. -/
def applyMorningClaim (state : DomainState) (timestamp : Int) (userId : String)
    (silent : Bool) (seed : Nat) : ApplyResult :=
  match findUserById state.users userId with
  | none => .ok state (conflictOut "user_not_found" "ユーザーが見つかりません")
  | some user =>
    if 8640000000000000 < timestamp.natAbs then .thrown "Invalid time value"
    else
      let today := toISODate timestamp
      if user.lastMorningDate == today then
        .ok state (conflictOut "already_claimed" "本日は既に受取済み")
      else
        let newStreak : Int :=
          if user.lastMorningDate == "" then 1
          else
            match parseISODate today, parseISODate user.lastMorningDate with
            | some d1, some d2 =>
              if d1 - d2 = 1 then min (jsOrInt user.streakCount 0 + 1) 30 else 1
            | _, _ => 1
        let bonus := 1000 + 100 * jsOrInt newStreak 0
        let users1 := updFirst (fun u => u.id == userId)
          (fun u => { u with streakCount := newStreak, lastMorningDate := today,
                             balance := u.balance + bonus }) state.users
        let tx : Tx := { id := generateId seed, ts := timestamp, type := "mint",
                         toId := userId, amount := bonus,
                         memo := "朝活（連続" ++ toString newStreak ++ "日）" }
        .ok { state with users := users1,
                         txs := if silent then state.txs else tx :: state.txs,
                         vTick := jsOrInt state.vTick 0 + 1 }
           { conflict := false, createdTxs := if silent then [] else [tx] }

/-- The cumulative-probability prize table of `applyRoulette` (exact
rational cumulative bounds; each payout is capped at the house balance). -/
def roulettePayout (roll : Rat) (jackpotBalance : Int) : Int :=
  if roll < (40 : Rat) / 100 then min jackpotBalance 0
  else if roll < (65 : Rat) / 100 then min jackpotBalance 50
  else if roll < (83 : Rat) / 100 then min jackpotBalance 100
  else if roll < (92 : Rat) / 100 then min jackpotBalance 150
  else if roll < (97 : Rat) / 100 then min jackpotBalance 200
  else if roll < (99 : Rat) / 100 then min jackpotBalance 400
  else if roll < (9999 : Rat) / 10000 then min jackpotBalance 700
  else 0

/-- `applyRoulette`. -/
def applyRoulette (state : DomainState) (data? : Option OpData) (timestamp : Int)
    (userId : String) (silent : Bool) (seed : Nat) : ApplyResult :=
  match data? with
  | none => .thrown destructureErr
  | some data =>
    match findUserById state.users userId, findJackpot state.users with
    | some user, some jackpot =>
      if user.balance < 100 then
        .ok state (conflictOut "insufficient_balance" "残高不足")
      else
        let users1 := credit (fun u => u.id == userId) (-100) state.users
        let users2 := credit (fun u => u.name == jackpotName) 100 users1
        let feeTx : Tx := { id := generateId seed, ts := timestamp, type := "jpot-fee",
                            fromId := userId, toId := jackpot.id, amount := 100,
                            memo := "ルーレット参加費" }
        let txs1 := if silent then state.txs else feeTx :: state.txs
        let createdTxs1 : List Tx := if silent then [] else [feeTx]
        if data.roll < (1 : Rat) / 100 then
          let payout := balOf users2 (fun u => u.name == jackpotName)
          if 0 < payout then
            let users3 := credit (fun u => u.id == userId) payout users2
            let users4 := updFirst (fun u => u.name == jackpotName)
              (fun u => { u with balance := 0 }) users3
            let jackpotTx : Tx := { id := generateId (seed + 1), ts := timestamp,
                                    type := "jackpot", fromId := jackpot.id,
                                    toId := userId, amount := payout,
                                    memo := "🎉 ジャックポット当選" }
            .ok { state with users := users4,
                             txs := if silent then txs1 else jackpotTx :: txs1,
                             vTick := jsOrInt state.vTick 0 + 1 }
               { conflict := false, payout := some payout,
                 createdTxs := createdTxs1 ++ (if silent then [] else [jackpotTx]) }
          else
            .ok { state with users := users2, txs := txs1,
                             vTick := jsOrInt state.vTick 0 + 1 }
               { conflict := false, payout := some payout, createdTxs := createdTxs1 }
        else
          let payout := roulettePayout data.roll (balOf users2 (fun u => u.name == jackpotName))
          if 0 < payout then
            let users3 := credit (fun u => u.id == userId) payout users2
            let users4 := credit (fun u => u.name == jackpotName) (-payout) users3
            let payoutTx : Tx := { id := generateId (seed + 1), ts := timestamp,
                                   type := "roulette", fromId := jackpot.id,
                                   toId := userId, amount := payout,
                                   memo := "ルーレット払い出し" }
            .ok { state with users := users4,
                             txs := if silent then txs1 else payoutTx :: txs1,
                             vTick := jsOrInt state.vTick 0 + 1 }
               { conflict := false, payout := some payout,
                 createdTxs := createdTxs1 ++ (if silent then [] else [payoutTx]) }
          else
            .ok { state with users := users2, txs := txs1,
                             vTick := jsOrInt state.vTick 0 + 1 }
               { conflict := false, payout := some payout, createdTxs := createdTxs1 }
    | _, _ => .ok state (conflictOut "user_not_found" "ユーザーが見つかりません")

/-- `applyBuyerRequest`. -/
def applyBuyerRequest (state : DomainState) (data? : Option OpData) (timestamp : Int)
    (userId : String) (silent : Bool) (seed : Nat) : ApplyResult :=
  match data? with
  | none => .thrown destructureErr
  | some data =>
    match state.rights.find? (fun x => x.id == data.rightId) with
    | none => .ok state (conflictOut "right_not_found" "権利が見つかりません")
    | some r =>
      if r.buyerId != userId then .ok state (conflictOut "not_buyer" "購入者のみ申請可")
      else if r.status != "owned" then
        .ok state (conflictOut "invalid_state" "実行申請不可の状態")
      else
        let rights1 := updFirst (fun x => x.id == data.rightId)
          (fun x => { x with status := "request" }) state.rights
        let tx : Tx := { id := generateId seed, ts := timestamp, type := "execute-request",
                         fromId := r.buyerId, toId := r.sellerId, listingId := r.listingId,
                         title := r.title, memo := "購入者が実行を申請" }
        .ok { state with rights := rights1,
                         txs := if silent then state.txs else tx :: state.txs,
                         vTick := jsOrInt state.vTick 0 + 1 }
           { conflict := false, updatedRight := some { r with status := "request" },
             createdTxs := if silent then [] else [tx] }

/-- `applySellerRespond`. -/
def applySellerRespond (state : DomainState) (data? : Option OpData) (timestamp : Int)
    (userId : String) (silent : Bool) (seed : Nat) : ApplyResult :=
  match data? with
  | none => .thrown destructureErr
  | some data =>
    match state.rights.find? (fun x => x.id == data.rightId) with
    | none => .ok state (conflictOut "right_not_found" "権利が見つかりません")
    | some r =>
      if r.sellerId != userId then .ok state (conflictOut "not_seller" "出品者のみ応答可")
      else if r.status != "request" then
        .ok state (conflictOut "invalid_state" "応答不可の状態")
      else
        let newStatus := if data.action == "exec" then "seller_executed"
                         else "seller_cancel_requested"
        let rights1 := updFirst (fun x => x.id == data.rightId)
          (fun x => { x with status := newStatus }) state.rights
        let tx : Tx :=
          if data.action == "exec" then
            { id := generateId seed, ts := timestamp, type := "execute-done",
              fromId := r.sellerId, toId := r.buyerId, listingId := r.listingId,
              title := r.title, memo := "販売者が実行" }
          else
            { id := generateId seed, ts := timestamp, type := "execute-cancel-ask",
              fromId := r.sellerId, toId := r.buyerId, listingId := r.listingId,
              title := r.title, memo := "販売者がキャンセル申請" }
        .ok { state with rights := rights1,
                         txs := if silent then state.txs else tx :: state.txs,
                         vTick := jsOrInt state.vTick 0 + 1 }
           { conflict := false, updatedRight := some { r with status := newStatus },
             createdTxs := if silent then [] else [tx] }

/-- `applyReportExecution`. -/
def applyReportExecution (state : DomainState) (data? : Option OpData) (timestamp : Int)
    (userId : String) (silent : Bool) (seed : Nat) : ApplyResult :=
  match data? with
  | none => .thrown destructureErr
  | some data =>
    match state.rights.find? (fun x => x.id == data.rightId) with
    | none => .ok state (conflictOut "right_not_found" "権利が見つかりません")
    | some r =>
      if r.sellerId != userId then .ok state (conflictOut "not_seller" "出品者のみ報告可")
      else if r.status != "request" then
        .ok state (conflictOut "invalid_state" "報告不可の状態")
      else
        let rights1 := updFirst (fun x => x.id == data.rightId)
          (fun x => { x with status := "seller_reported", rejectionCount := some 0 })
          state.rights
        let tx : Tx := { id := generateId seed, ts := timestamp, type := "execute-reported",
                         fromId := r.sellerId, toId := r.buyerId, listingId := r.listingId,
                         title := r.title, memo := "販売者が実行を報告" }
        .ok { state with rights := rights1,
                         txs := if silent then state.txs else tx :: state.txs,
                         vTick := jsOrInt state.vTick 0 + 1 }
           { conflict := false,
             updatedRight := some { r with status := "seller_reported",
                                           rejectionCount := some 0 },
             createdTxs := if silent then [] else [tx] }

/-- `applyBuyerConfirm`. -/
def applyBuyerConfirm (state : DomainState) (data? : Option OpData) (timestamp : Int)
    (userId : String) (silent : Bool) (seed : Nat) : ApplyResult :=
  match data? with
  | none => .thrown destructureErr
  | some data =>
    match state.rights.find? (fun x => x.id == data.rightId) with
    | none => .ok state (conflictOut "right_not_found" "権利が見つかりません")
    | some r =>
      if r.buyerId != userId then .ok state (conflictOut "not_buyer" "購入者のみ確認可")
      else if r.status != "seller_reported" then
        .ok state (conflictOut "invalid_state" "確認不可の状態")
      else
        let rights1 := updFirst (fun x => x.id == data.rightId)
          (fun x => { x with status := "finalized", executed := true,
                             rejectionCount := none }) state.rights
        let tx : Tx := { id := generateId seed, ts := timestamp, type := "execute-confirm",
                         fromId := r.buyerId, toId := r.sellerId, listingId := r.listingId,
                         title := r.title, memo := "購入者が実行を確認（承諾）" }
        .ok { state with rights := rights1,
                         txs := if silent then state.txs else tx :: state.txs,
                         vTick := jsOrInt state.vTick 0 + 1 }
           { conflict := false,
             updatedRight := some { r with status := "finalized", executed := true,
                                           rejectionCount := none },
             createdTxs := if silent then [] else [tx] }

/-- `applyBuyerReject` — single-use per report cycle via `rejectionCount`. -/
def applyBuyerReject (state : DomainState) (data? : Option OpData) (timestamp : Int)
    (userId : String) (silent : Bool) (seed : Nat) : ApplyResult :=
  match data? with
  | none => .thrown destructureErr
  | some data =>
    match state.rights.find? (fun x => x.id == data.rightId) with
    | none => .ok state (conflictOut "right_not_found" "権利が見つかりません")
    | some r =>
      if r.buyerId != userId then .ok state (conflictOut "not_buyer" "購入者のみ拒否可")
      else if r.status != "seller_reported" then
        .ok state (conflictOut "invalid_state" "拒否不可の状態")
      else if (match r.rejectionCount with | some n => decide (1 ≤ n) | none => false) then
        .ok state (conflictOut "already_rejected" "既に拒否済みです")
      else
        let newCount := (r.rejectionCount.getD 0) + 1
        let rights1 := updFirst (fun x => x.id == data.rightId)
          (fun x => { x with rejectionCount := some ((x.rejectionCount.getD 0) + 1),
                             status := "buyer_rejected" }) state.rights
        let tx : Tx := { id := generateId seed, ts := timestamp, type := "execute-reject",
                         fromId := r.buyerId, toId := r.sellerId, listingId := r.listingId,
                         title := r.title, memo := "購入者が実行を拒否" }
        .ok { state with rights := rights1,
                         txs := if silent then state.txs else tx :: state.txs,
                         vTick := jsOrInt state.vTick 0 + 1 }
           { conflict := false,
             updatedRight := some { r with rejectionCount := some newCount,
                                           status := "buyer_rejected" },
             createdTxs := if silent then [] else [tx] }

/-- `applySellerRefund` — refund amount optionally partial, capped at the
full listing price; restores listing availability. -/
def applySellerRefund (state : DomainState) (data? : Option OpData) (timestamp : Int)
    (userId : String) (silent : Bool) (seed : Nat) : ApplyResult :=
  match data? with
  | none => .thrown destructureErr
  | some data =>
    match state.rights.find? (fun x => x.id == data.rightId) with
    | none => .ok state (conflictOut "right_not_found" "権利が見つかりません")
    | some r =>
      if r.sellerId != userId then .ok state (conflictOut "not_seller" "出品者のみ返金可")
      else if !(r.status == "buyer_rejected" || r.status == "seller_cancel_requested"
                || r.status == "seller_reported") then
        .ok state (conflictOut "invalid_state" "返金不可の状態")
      else
        match state.listings.find? (fun l => l.id == r.listingId),
              findUserById state.users r.sellerId, findUserById state.users r.buyerId with
        | some listing, some seller, some buyer =>
          let fullAmount := jsOrInt listing.price 0
          let refundAmount := if 0 < data.amount then min data.amount fullAmount
                              else fullAmount
          if seller.balance < refundAmount then
            .ok state (conflictOut "seller_insufficient" "販売者残高不足")
          else
            let users1 := credit (fun u => u.id == r.sellerId) (-refundAmount) state.users
            let users2 := credit (fun u => u.id == r.buyerId) refundAmount users1
            let restock : Listing → Listing := fun l =>
              let newSold := max 0 (jsOrInt l.sold 0 - 1)
              { l with sold := newSold,
                       active := if newSold < l.qty then true else l.active }
            let listings1 := updFirst (fun l => l.id == r.listingId) restock state.listings
            let rights1 := state.rights.filter (fun x => !(x.id == data.rightId))
            let tx : Tx := { id := generateId seed, ts := timestamp, type := "seller_refund",
                             fromId := seller.id, toId := buyer.id, listingId := listing.id,
                             title := r.title, amount := refundAmount,
                             memo := "返金: ¥" ++ toString refundAmount }
            .ok { state with users := users2, listings := listings1, rights := rights1,
                             txs := if silent then state.txs else tx :: state.txs,
                             vTick := jsOrInt state.vTick 0 + 1 }
               { conflict := false, deletedListingId := some listing.id,
                 createdTxs := if silent then [] else [tx],
                 updatedListing := some (restock listing) }
        | _, _, _ => .ok state (conflictOut "missing_entities" "関連データが不足")

/-- `applyBuyerFinalize`. -/
def applyBuyerFinalize (state : DomainState) (data? : Option OpData) (timestamp : Int)
    (userId : String) (silent : Bool) (seed : Nat) : ApplyResult :=
  match data? with
  | none => .thrown destructureErr
  | some data =>
    match state.rights.find? (fun x => x.id == data.rightId) with
    | none => .ok state (conflictOut "right_not_found" "権利が見つかりません")
    | some r =>
      if r.buyerId != userId then .ok state (conflictOut "not_buyer" "購入者のみ確定可")
      else if r.status == "seller_executed" then
        let rights1 := updFirst (fun x => x.id == data.rightId)
          (fun x => { x with status := "finalized", executed := true }) state.rights
        let tx : Tx := { id := generateId seed, ts := timestamp, type := "execute-finalize",
                         fromId := r.buyerId, toId := r.sellerId, listingId := r.listingId,
                         title := r.title, memo := "購入者が実行確認（確定）" }
        .ok { state with rights := rights1,
                         txs := if silent then state.txs else tx :: state.txs,
                         vTick := jsOrInt state.vTick 0 + 1 }
           { conflict := false,
             updatedRight := some { r with status := "finalized", executed := true },
             createdTxs := if silent then [] else [tx] }
      else if r.status == "seller_cancel_requested" then
        match state.listings.find? (fun l => l.id == r.listingId),
              findUserById state.users r.sellerId, findUserById state.users r.buyerId with
        | some l, some seller, some _ =>
          let refund := 9 * l.price / 10
          if seller.balance < refund then
            .ok state (conflictOut "seller_insufficient" "販売者残高不足")
          else
            let users1 := credit (fun u => u.id == r.sellerId) (-refund) state.users
            let users2 := credit (fun u => u.id == r.buyerId) refund users1
            let restock : Listing → Listing := fun x =>
              let newSold := max 0 (jsOrInt x.sold 0 - 1)
              { x with sold := newSold,
                       active := if newSold < x.qty then true else x.active }
            let listings1 := updFirst (fun x => x.id == r.listingId) restock state.listings
            let rights1 := state.rights.filter (fun x => !(x.id == data.rightId))
            let tx : Tx := { id := generateId seed, ts := timestamp,
                             type := "execute-cancel-ok", fromId := r.buyerId,
                             toId := r.sellerId, listingId := l.id, title := r.title,
                             amount := refund, memo := "キャンセル返金（全額）確定" }
            .ok { state with users := users2, listings := listings1, rights := rights1,
                             txs := if silent then state.txs else tx :: state.txs,
                             vTick := jsOrInt state.vTick 0 + 1 }
               { conflict := false, updatedListing := some (restock l),
                 createdTxs := if silent then [] else [tx] }
        | _, _, _ => .ok state (conflictOut "missing_entities" "関連データが不足")
      else .ok state (conflictOut "invalid_state" "確定不可の状態")

/-- `applyOperation` — string-tag dispatch to the sixteen handlers. -/
def applyOperation (state : DomainState) (operation : Operation) (seed : Nat) :
    ApplyResult :=
  match operation.type with
  | "transfer" => applyTransfer state operation.data operation.timestamp
      operation.userId operation.silent seed
  | "buy_listing" => applyBuyListing state operation.data operation.timestamp
      operation.userId operation.silent seed
  | "create_listing" => applyCreateListing state operation.data operation.timestamp
      operation.userId seed
  | "toggle_listing" => applyToggleListing state operation.data operation.userId
  | "delete_listing" => applyDeleteListing state operation.data operation.userId
  | "register_user" => applyRegisterUser state operation.data operation.timestamp
      operation.silent seed
  | "morning_claim" => applyMorningClaim state operation.timestamp operation.userId
      operation.silent seed
  | "roulette" => applyRoulette state operation.data operation.timestamp
      operation.userId operation.silent seed
  | "buyer_request" => applyBuyerRequest state operation.data operation.timestamp
      operation.userId operation.silent seed
  | "seller_respond" => applySellerRespond state operation.data operation.timestamp
      operation.userId operation.silent seed
  | "report_execution" => applyReportExecution state operation.data operation.timestamp
      operation.userId operation.silent seed
  | "buyer_confirm" => applyBuyerConfirm state operation.data operation.timestamp
      operation.userId operation.silent seed
  | "buyer_reject" => applyBuyerReject state operation.data operation.timestamp
      operation.userId operation.silent seed
  | "seller_refund" => applySellerRefund state operation.data operation.timestamp
      operation.userId operation.silent seed
  | "buyer_finalize" => applyBuyerFinalize state operation.data operation.timestamp
      operation.userId operation.silent seed
  | "send_message" => applySendMessage state operation.data operation.timestamp seed
  | t => .ok state (conflictOut "unknown_operation" ("Unknown operation type: " ++ t))

/-- The accumulating result of one merge pass. -/
structure MergeResult where
  state : DomainState
  processedOps : List ProcessedOp
  conflicts : List Conflict
  newConflicts : List Conflict
  newUsers : List User
  newTxs : List Tx
  newRights : List Right
  updatedListings : List Listing
  deletedListings : List String
  deriving Repr, DecidableEq

/-- The conflict record the orchestrator emits when a handler throws. -/
def errConflict (op : Operation) (msg : String) : Conflict :=
  { operationId := op.id, type := "error", message := msg,
    timestamp := op.timestamp, userId := op.userId }

/-- One iteration of the orchestrator loop: dispatch, record conflicts and
side effects, append to the ProcessedOp log; a thrown error is caught and
converted into a conflict of kind `"error"` without touching the log. -/
def mergeStep (seed : Nat) (acc : MergeResult) (op : Operation) : MergeResult :=
  match applyOperation acc.state op seed with
  | .thrown msg => { acc with newConflicts := acc.newConflicts ++ [errConflict op msg] }
  | .ok st out =>
    { acc with
      state := st,
      newConflicts :=
        if out.conflict then
          acc.newConflicts ++ [{ operationId := op.id, type := out.conflictType,
                                 message := out.message, timestamp := op.timestamp,
                                 userId := op.userId }]
        else acc.newConflicts,
      newUsers := acc.newUsers ++ out.createdUser.toList,
      newTxs := acc.newTxs ++ out.createdTxs,
      newRights := acc.newRights ++ out.createdRight.toList,
      updatedListings := acc.updatedListings ++ out.updatedListing.toList,
      deletedListings := acc.deletedListings ++ out.deletedListingId.toList,
      processedOps := acc.processedOps ++
        [{ id := op.id, timestamp := op.timestamp, type := op.type,
           userId := op.userId }] }

/-- The orchestrator loop over the deduplicated, sorted operations; each
operation receives a fresh id seed. -/
def mergeLoop : Nat → MergeResult → List Operation → MergeResult
  | _, acc, [] => acc
  | seed, acc, op :: rest => mergeLoop (seed + 2) (mergeStep seed acc op) rest

/-- The dedup stage: drop every operation whose id already appears in the
durable ProcessedOp log. -/
def unprocessedOf (log : List ProcessedOp) (batch : List Operation) : List Operation :=
  batch.filter (fun op => !(log.any (fun p => p.id == op.id)))

/-- Stable insertion by ascending client timestamp. -/
def insertByTs (a : Operation) : List Operation → List Operation
  | [] => [a]
  | b :: l => if a.timestamp ≤ b.timestamp then a :: b :: l else b :: insertByTs a l

/-- The ordering stage: ascending client timestamp, stable on ties.  A
stable sorted permutation is unique, so this is extensionally the
`sort((a, b) => a.timestamp - b.timestamp)` of the source. -/
def sortByTs : List Operation → List Operation
  | [] => []
  | a :: l => insertByTs a (sortByTs l)

/-- Retention window for ProcessedOp and Conflict entries (1 hour). -/
def hourMs : Int := 3600000

/-- Retention window for notifications (60 seconds). -/
def minuteMs : Int := 60000

/-- The accumulator the orchestrator starts from: a working copy of the
snapshot's state and logs, with empty diff collections. -/
def initResult (current : Snapshot) : MergeResult :=
  { state := current.state, processedOps := current.processedOps,
    conflicts := current.conflicts, newConflicts := [], newUsers := [],
    newTxs := [], newRights := [], updatedListings := [], deletedListings := [] }

/-- The Retention Pruner: drop ProcessedOp and Conflict entries whose
timestamp is more than one hour before `now` (the merge execution time),
and notifications more than one minute old. -/
def pruneResult (now : Int) (result : MergeResult) : MergeResult :=
  { result with
    processedOps := result.processedOps.filter (fun op => now - hourMs < op.timestamp),
    conflicts := result.conflicts.filter (fun c => now - hourMs < c.timestamp),
    state := { result.state with
                 notifications := result.state.notifications.filter
                   (fun n => now - minuteMs < n.timestamp) } }

/-- `mergeOperations(current, newOperations)`; `now` is the wall-clock time
of the merge pass (`Date.now()` inside the function). -/
def mergeOperations (current : Snapshot) (newOperations : List Operation)
    (now : Int) : MergeResult :=
  pruneResult now
    (mergeLoop 0 (initResult current)
      (sortByTs (unprocessedOf current.processedOps newOperations)))

/-! ### Basic lemmas about the embedding's helper functions -/

@[simp] theorem jsOrInt_zero (x : Int) : jsOrInt x 0 = x := by
  unfold jsOrInt; split <;> simp_all

theorem updFirst_of_find?_eq_none {p : α → Bool} {f : α → α} {l : List α}
    (h : l.find? p = none) : updFirst p f l = l := by
  induction l with
  | nil => rfl
  | cons x xs ih =>
    rw [List.find?_eq_none] at h
    have hx : ¬ p x = true := h x (List.mem_cons_self x xs)
    have hxs : xs.find? p = none :=
      List.find?_eq_none.mpr (fun a ha => h a (List.mem_cons_of_mem x ha))
    simp [updFirst, hx, ih hxs]

theorem sum_map_updFirst (g : α → Int) (p : α → Bool) (f : α → α) :
    ∀ l : List α, ((updFirst p f l).map g).sum =
      (l.map g).sum + (((l.find? p).map (fun y => g (f y) - g y)).getD 0)
  | [] => by simp [updFirst]
  | x :: xs => by
    by_cases hx : p x = true
    · simp [updFirst, hx]; ring
    · simp [updFirst, hx, sum_map_updFirst g p f xs]; ring

theorem map_updFirst (g : α → β) {p : α → Bool} {f : α → α}
    (hg : ∀ x, g (f x) = g x) : ∀ l : List α, (updFirst p f l).map g = l.map g
  | [] => rfl
  | x :: xs => by
    by_cases hx : p x = true
    · simp [updFirst, hx, hg]
    · simp [updFirst, hx, map_updFirst g hg xs]

theorem any_updFirst {q : α → Bool} {p : α → Bool} {f : α → α}
    (hq : ∀ x, q (f x) = q x) : ∀ l : List α, (updFirst p f l).any q = l.any q
  | [] => rfl
  | x :: xs => by
    by_cases hx : p x = true
    · simp [updFirst, hx, hq]
    · simp [updFirst, hx, any_updFirst hq xs]

theorem find?_updFirst_of_disjoint {q p : α → Bool} {f : α → α} :
    ∀ {l : List α}, (∀ x ∈ l, p x = true → q x = false) →
      (∀ x, q (f x) = q x) → (updFirst p f l).find? q = l.find? q := by
  intro l
  induction l with
  | nil => intro _ _; rfl
  | cons x xs ih =>
    intro hpq hq
    by_cases hx : p x = true
    · have hqx : q x = false := hpq x (List.mem_cons_self x xs) hx
      simp [updFirst, hx, List.find?_cons, hq, hqx]
    · simp only [updFirst, hx, if_false]
      by_cases hqx : q x = true
      · simp [List.find?_cons, hqx]
      · simp only [Bool.not_eq_true] at hqx
        simp [List.find?_cons, hqx,
          ih (fun a ha hpa => hpq a (List.mem_cons_of_mem x ha) hpa) hq]

theorem find?_updFirst_self {p : α → Bool} {f : α → α}
    (hp : ∀ x, p (f x) = p x) : ∀ l : List α,
      (updFirst p f l).find? p = (l.find? p).map f
  | [] => rfl
  | x :: xs => by
    by_cases hx : p x = true
    · simp [updFirst, hx, List.find?_cons, hp]
    · simp [updFirst, hx, List.find?_cons, find?_updFirst_self hp xs]

theorem forall_updFirst_found {P : α → Prop} {p : α → Bool} {f : α → α} {y : α} :
    ∀ {l : List α}, l.find? p = some y → P (f y) → (∀ x ∈ l, P x) →
      ∀ x ∈ updFirst p f l, P x := by
  intro l
  induction l with
  | nil => intro h; simp at h
  | cons a xs ih =>
    intro hfind hfy hall x hx
    by_cases ha : p a = true
    · rw [List.find?_cons_of_pos _ ha] at hfind
      cases hfind
      simp only [updFirst, ha, if_true, List.mem_cons] at hx
      rcases hx with hx | hx
      · exact hx ▸ hfy
      · exact hall x (List.mem_cons_of_mem _ hx)
    · rw [List.find?_cons_of_neg _ ha] at hfind
      simp [updFirst, ha] at hx
      rcases hx with hx | hx
      · exact hx ▸ hall a (List.mem_cons_self a xs)
      · exact ih hfind hfy (fun z hz => hall z (List.mem_cons_of_mem _ hz)) x hx

theorem forall_updFirst_impl {P : α → Prop} {p : α → Bool} {f : α → α} :
    ∀ {l : List α}, (∀ x ∈ l, P x → P (f x)) → (∀ x ∈ l, P x) →
      ∀ x ∈ updFirst p f l, P x := by
  intro l
  induction l with
  | nil => intro _ _ x hx; simp [updFirst] at hx
  | cons a xs ih =>
    intro himp hall x hx
    by_cases ha : p a = true
    · simp only [updFirst, ha, if_true, List.mem_cons] at hx
      rcases hx with hx | hx
      · exact hx ▸ himp a (List.mem_cons_self a xs) (hall a (List.mem_cons_self a xs))
      · exact hall x (List.mem_cons_of_mem _ hx)
    · simp [updFirst, ha] at hx
      rcases hx with hx | hx
      · exact hx ▸ hall a (List.mem_cons_self a xs)
      · exact ih (fun z hz => himp z (List.mem_cons_of_mem _ hz))
          (fun z hz => hall z (List.mem_cons_of_mem _ hz)) x hx

theorem balOf_le_updFirst {q p : User → Bool} {f : User → User}
    (hq : ∀ x, q (f x) = q x) (hmono : ∀ x, x.balance ≤ (f x).balance) :
    ∀ l : List User, balOf l q ≤ balOf (updFirst p f l) q
  | [] => le_refl _
  | x :: xs => by
    by_cases hx : p x = true
    · by_cases hqx : q x = true
      · simp [balOf, updFirst, hx, List.find?_cons, hq, hqx]
        exact hmono x
      · simp only [Bool.not_eq_true] at hqx
        simp [balOf, updFirst, hx, List.find?_cons, hq, hqx]
    · by_cases hqx : q x = true
      · simp [balOf, updFirst, hx, List.find?_cons, hqx]
      · simp only [Bool.not_eq_true] at hqx
        simpa [balOf, updFirst, hx, List.find?_cons, hqx]
          using balOf_le_updFirst hq hmono xs

/-! ### Concrete fixtures used by witnesses and counterexamples -/

/-- A plain user with 1000 units. -/
def userA : User := { id := "a", name := "A", balance := 1000 }

/-- A plain user with no funds. -/
def userB : User := { id := "b", name := "B", balance := 0 }

/-- The house account fixture. -/
def houseUser : User := { id := "h", name := jackpotName, balance := 0 }

/-- A two-user domain state. -/
def baseState : DomainState :=
  { users := [userA, userB], txs := [], listings := [], rights := [],
    notifications := [], vTick := 0 }

/-- A snapshot holding `baseState` with empty logs. -/
def baseSnap : Snapshot := { state := baseState, processedOps := [], conflicts := [] }

/-- A transfer of 100 from `userA` to `userB`. -/
def opX : Operation :=
  { id := "x", type := "transfer", data := some { toId := "b", amount := 100 },
    timestamp := 1, userId := "a" }

/-- A transfer of 700 from `userA` to `userB`, timestamp 5. -/
def opP : Operation :=
  { id := "p", type := "transfer", data := some { toId := "b", amount := 700 },
    timestamp := 5, userId := "a" }

/-- A transfer of 900 from `userA` to `userB`, also timestamp 5 (ties with
`opP`). -/
def opQ : Operation :=
  { id := "q", type := "transfer", data := some { toId := "b", amount := 900 },
    timestamp := 5, userId := "a" }

/-- A transfer operation whose `data` member is missing (its handler
throws on destructuring). -/
def opNoData : Operation :=
  { id := "nd", type := "transfer", data := none, timestamp := 5, userId := "a" }

/-- A seller with no funds. -/
def sellerS : User := { id := "s", name := "S", balance := 0 }

/-- A buyer with 1000 units. -/
def buyerC : User := { id := "c", name := "C", balance := 1000 }

/-- A single-quantity active listing of `sellerS`, price 100. -/
def listingL : Listing :=
  { id := "L", title := "t", price := 100, sellerId := "s", active := true,
    qty := 1, sold := 0 }

/-- A marketplace state without any house account. -/
def marketState : DomainState :=
  { users := [sellerS, buyerC], txs := [], listings := [listingL], rights := [],
    notifications := [], vTick := 0 }

/-- A snapshot holding `marketState` with empty logs. -/
def marketSnap : Snapshot :=
  { state := marketState, processedOps := [], conflicts := [] }

/-- `buyerC` buys `listingL`. -/
def opBuy : Operation :=
  { id := "B1", type := "buy_listing", data := some { listingId := "L" },
    timestamp := 1, userId := "c" }

/-- `sellerS` toggles `listingL`. -/
def opToggle : Operation :=
  { id := "T1", type := "toggle_listing", data := some { listingId := "L" },
    timestamp := 2, userId := "s" }

/-- A well-formed `send_message` operation. -/
def msgOp : Operation :=
  { id := "m", type := "send_message",
    data := some { recipientId := "b", content := "hi", msgType := "note" },
    timestamp := 7, userId := "a" }

/-- The state `applySendMessage` produces from `baseState` for `msgOp`:
one appended notification, `vTick` untouched. -/
def msgResultState : DomainState :=
  { baseState with
    notifications := [{ id := "gid0", timestamp := 7, recipientId := "b",
                        content := "hi", type := "note", isHtml := false }] }

/-- The state produced by applying `opX` to `baseState` (seed 0). -/
def c9s : DomainState :=
  match applyOperation baseState opX 0 with
  | .ok s _ => s
  | .thrown _ => baseState

/-- The outcome produced by applying `opX` to `baseState` (seed 0). -/
def c9out : Outcome :=
  match applyOperation baseState opX 0 with
  | .ok _ o => o
  | .thrown _ => conflictOut "" ""

/-- A merge accumulator over `baseState` with one logged conflict. -/
def accW : MergeResult :=
  { state := baseState, processedOps := [], conflicts := [], newConflicts := [],
    newUsers := [], newTxs := [], newRights := [], updatedListings := [],
    deletedListings := [] }

/-! ### C1 — idempotency of operation submission -/

/-- C1 (counterexample): submitting the same operation id twice in the same
batch is not deduplicated — the batch `[opX, opX]` produces a different
domain state than `[opX]`, so the state changed twice. -/
theorem c1_same_batch_duplicate_applied_twice :
    (mergeOperations baseSnap [opX, opX] 10).state ≠
      (mergeOperations baseSnap [opX] 10).state := by decide

/-- C1 (amended): an operation whose id already appears in the snapshot's
ProcessedOp log is silently dropped — the merge result is identical to the
merge of the batch with all such operations removed (hence no state change
and no conflict from them).  Duplicates within one batch are not
deduplicated against each other. -/
theorem mergeOperations_dedup_by_log (snap : Snapshot) (batch : List Operation)
    (now : Int) :
    mergeOperations snap batch now =
      mergeOperations snap
        (batch.filter (fun op => !(snap.processedOps.any (fun p => p.id == op.id))))
        now := by
  unfold mergeOperations unprocessedOf
  rw [List.filter_filter]
  simp

/-! ### C5 — retention pruning -/

theorem mem_processedOps_mergeLoop {x : ProcessedOp} :
    ∀ (ops : List Operation) (seed : Nat) (acc : MergeResult),
      x ∈ acc.processedOps → x ∈ (mergeLoop seed acc ops).processedOps := by
  intro ops
  induction ops with
  | nil => intro seed acc h; simpa [mergeLoop] using h
  | cons op rest ih =>
    intro seed acc h
    have hstep : x ∈ (mergeStep seed acc op).processedOps := by
      unfold mergeStep
      cases happ : applyOperation acc.state op seed <;> simp [h]
    simpa [mergeLoop] using ih (seed + 2) (mergeStep seed acc op) hstep

/-- C5: the Retention Pruner drops ProcessedOp and Conflict entries on a
1-hour sliding window anchored at the merge execution time `now`: every
entry surviving the pass has a timestamp within the window, and every
pre-existing ProcessedOp entry within the window survives. -/
theorem mergeOperations_retention (snap : Snapshot) (batch : List Operation)
    (now : Int) :
    (∀ p ∈ (mergeOperations snap batch now).processedOps,
       now - hourMs < p.timestamp) ∧
    (∀ c ∈ (mergeOperations snap batch now).conflicts,
       now - hourMs < c.timestamp) ∧
    (∀ p ∈ snap.processedOps, now - hourMs < p.timestamp →
       p ∈ (mergeOperations snap batch now).processedOps) := by
  unfold mergeOperations pruneResult
  refine ⟨?_, ?_, ?_⟩
  · intro p hp
    simp only [List.mem_filter] at hp
    exact_mod_cast of_decide_eq_true hp.2
  · intro c hc
    simp only [List.mem_filter] at hc
    exact_mod_cast of_decide_eq_true hc.2
  · intro p hp hts
    refine List.mem_filter.mpr ⟨?_, by simpa using hts⟩
    exact mem_processedOps_mergeLoop _ _ _ (by simpa [initResult] using hp)

/-- C5 (witness): a concrete in-window log entry survives a merge pass. -/
theorem mergeOperations_retention_witness :
    ({ id := "x", timestamp := 1, type := "transfer", userId := "a" } : ProcessedOp) ∈
      (mergeOperations { state := baseState,
                         processedOps := [{ id := "x", timestamp := 1,
                                            type := "transfer", userId := "a" }],
                         conflicts := [] } [] 10).processedOps :=
  (mergeOperations_retention _ [] 10).2.2 _ (by decide) (by decide)

/-! ### C8 — thrown errors are caught and converted to conflicts -/

/-- C8: if dispatching an operation throws, the orchestrator catches it,
records a conflict of kind `"error"` carrying the operation's id, and
continues the loop on the remaining operations of the batch with the
domain state and logs untouched. -/
theorem mergeLoop_catches_thrown (seed : Nat) (acc : MergeResult) (op : Operation)
    (rest : List Operation) (msg : String)
    (h : applyOperation acc.state op seed = ApplyResult.thrown msg) :
    mergeLoop seed acc (op :: rest) =
      mergeLoop (seed + 2)
        { acc with newConflicts := acc.newConflicts ++ [errConflict op msg] } rest := by
  simp only [mergeLoop, mergeStep, h]

/-- C8 (witness): a transfer with a missing `data` member throws, is
recorded as an `"error"` conflict, and the batch continues. -/
theorem mergeLoop_catches_thrown_witness :
    applyOperation accW.state opNoData 0 = ApplyResult.thrown destructureErr ∧
    mergeLoop 0 accW [opNoData, opX] =
      mergeLoop 2
        { accW with newConflicts := accW.newConflicts ++
            [errConflict opNoData destructureErr] } [opX] :=
  ⟨by decide, mergeLoop_catches_thrown 0 accW opNoData [opX] destructureErr (by decide)⟩

/-! ### C10 — thrown operations are not logged and rerun on resubmission -/

/-- C10: an operation whose handler throws is not appended to the
ProcessedOp log, and any operation whose id is absent from the log passes
the dedup filter of a later merge pass (so its handler runs again). -/
theorem thrown_not_logged_and_rerun :
    (∀ (seed : Nat) (acc : MergeResult) (op : Operation) (msg : String),
       applyOperation acc.state op seed = ApplyResult.thrown msg →
       (mergeStep seed acc op).processedOps = acc.processedOps) ∧
    (∀ (log : List ProcessedOp) (batch : List Operation) (op : Operation),
       op ∈ batch → log.any (fun p => p.id == op.id) = false →
       op ∈ unprocessedOf log batch) := by
  constructor
  · intro seed acc op msg h
    simp [mergeStep, h]
  · intro log batch op hmem hlog
    exact List.mem_filter.mpr ⟨hmem, by simp [hlog]⟩

/-- C10 (witness): the throwing no-`data` transfer leaves the log unchanged,
and an unlogged operation passes the dedup filter. -/
theorem thrown_not_logged_and_rerun_witness :
    (mergeStep 0 accW opNoData).processedOps = accW.processedOps ∧
    opX ∈ unprocessedOf [] [opX] :=
  ⟨thrown_not_logged_and_rerun.1 0 accW opNoData destructureErr (by decide),
   thrown_not_logged_and_rerun.2 [] [opX] opX (by decide) (by decide)⟩

/-! ### C6 — ordering determinism -/

theorem insertByTs_perm (a : Operation) :
    ∀ l : List Operation, (insertByTs a l).Perm (a :: l)
  | [] => List.Perm.refl _
  | b :: t => by
    by_cases h : a.timestamp ≤ b.timestamp
    · simp [insertByTs, h]
    · simp only [insertByTs, h, if_false]
      exact ((insertByTs_perm a t).cons b).trans (List.Perm.swap a b t)

theorem sortByTs_perm : ∀ l : List Operation, (sortByTs l).Perm l
  | [] => List.Perm.refl _
  | a :: t => (insertByTs_perm a (sortByTs t)).trans ((sortByTs_perm t).cons a)

theorem insertByTs_sorted (a : Operation) :
    ∀ {l : List Operation},
      l.Pairwise (fun x y => x.timestamp ≤ y.timestamp) →
      (insertByTs a l).Pairwise (fun x y => x.timestamp ≤ y.timestamp) := by
  intro l
  induction l with
  | nil => intro _; simp [insertByTs]
  | cons b t ih =>
    intro h
    rcases List.pairwise_cons.mp h with ⟨hb, ht⟩
    by_cases hab : a.timestamp ≤ b.timestamp
    · simp only [insertByTs, hab, if_true]
      refine List.pairwise_cons.mpr ⟨?_, h⟩
      intro z hz
      rcases List.mem_cons.mp hz with hz | hz
      · exact hz ▸ hab
      · exact le_trans hab (hb z hz)
    · simp only [insertByTs, hab, if_false]
      refine List.pairwise_cons.mpr ⟨?_, ih ht⟩
      intro z hz
      rcases List.mem_cons.mp ((insertByTs_perm a t).mem_iff.mp hz) with hz | hz
      · exact hz ▸ le_of_not_le hab
      · exact hb z hz

theorem sortByTs_sorted :
    ∀ l : List Operation,
      (sortByTs l).Pairwise (fun x y => x.timestamp ≤ y.timestamp)
  | [] => List.Pairwise.nil
  | a :: t => insertByTs_sorted a (sortByTs_sorted t)

theorem sortByTs_eq_of_perm {l₁ l₂ : List Operation} (h : l₁.Perm l₂)
    (hts : l₁.Pairwise (fun a b => a.timestamp ≠ b.timestamp)) :
    sortByTs l₁ = sortByTs l₂ := by
  have hp : (sortByTs l₁).Perm (sortByTs l₂) :=
    (sortByTs_perm l₁).trans (h.trans (sortByTs_perm l₂).symm)
  have hne₁ : (sortByTs l₁).Pairwise (fun a b => a.timestamp ≠ b.timestamp) :=
    ((sortByTs_perm l₁).pairwise_iff (fun hxy => hxy.symm)).mpr hts
  have hne₂ : (sortByTs l₂).Pairwise (fun a b => a.timestamp ≠ b.timestamp) :=
    ((sortByTs_perm l₂).pairwise_iff (fun hxy => hxy.symm)).mpr
      ((h.pairwise_iff (fun hxy => hxy.symm)).mp hts)
  have hlt₁ : (sortByTs l₁).Pairwise (fun a b => a.timestamp < b.timestamp) :=
    ((sortByTs_sorted l₁).and hne₁).imp (fun hab => lt_of_le_of_ne hab.1 hab.2)
  have hlt₂ : (sortByTs l₂).Pairwise (fun a b => a.timestamp < b.timestamp) :=
    ((sortByTs_sorted l₂).and hne₂).imp (fun hab => lt_of_le_of_ne hab.1 hab.2)
  exact @List.eq_of_perm_of_sorted Operation
    (fun a b => a.timestamp < b.timestamp)
    ⟨fun a b h1 h2 => absurd (lt_trans h1 h2) (lt_irrefl _)⟩ _ _ hp hlt₁ hlt₂

/-- C6 (counterexample): two operations with equal client timestamps — the
batch as a set does not determine the result, because the sort is stable
and ties are kept in arrival order; permuting the tied operations yields a
different final domain state. -/
theorem c6_tie_order_dependence :
    ([opP, opQ] : List Operation).Perm [opQ, opP] ∧
    (mergeOperations baseSnap [opP, opQ] 10).state ≠
      (mergeOperations baseSnap [opQ, opP] 10).state := by decide

/-- C6 (amended): for batches whose operations carry pairwise-distinct
client timestamps, the merge result is deterministic in the batch as a
set — any permutation of the input batch produces an identical domain
state (operations are applied in client-timestamp order, not arrival
order). -/
theorem mergeOperations_order_determinism (snap : Snapshot)
    (b₁ b₂ : List Operation) (now : Int) (hperm : b₁.Perm b₂)
    (hts : b₁.Pairwise (fun a b => a.timestamp ≠ b.timestamp)) :
    (mergeOperations snap b₁ now).state = (mergeOperations snap b₂ now).state := by
  have hfp : (unprocessedOf snap.processedOps b₁).Perm
      (unprocessedOf snap.processedOps b₂) := hperm.filter _
  have hft : (unprocessedOf snap.processedOps b₁).Pairwise
      (fun a b => a.timestamp ≠ b.timestamp) :=
    List.Pairwise.sublist (List.filter_sublist b₁) hts
  unfold mergeOperations
  rw [sortByTs_eq_of_perm hfp hft]

/-- C6 (witness): the amended determinism theorem applied to a concrete
two-operation batch with distinct timestamps. -/
theorem mergeOperations_order_determinism_witness :
    (mergeOperations baseSnap [opX, opP] 10).state =
      (mergeOperations baseSnap [opP, opX] 10).state :=
  mergeOperations_order_determinism baseSnap [opX, opP] [opP, opX] 10
    (by decide) (by decide)

/-! ### C9 — the version counter vTick -/

theorem applyTransfer_vTick {s : DomainState} {d : Option OpData} {ts : Int}
    {uid : String} {sil : Bool} {seed : Nat} {s' : DomainState} {out : Outcome}
    (h : applyTransfer s d ts uid sil seed = ApplyResult.ok s' out) :
    (out.conflict = true ∧ s' = s) ∨ (out.conflict = false ∧ s'.vTick = s.vTick + 1) := by
  unfold applyTransfer at h
  try simp only at h
  repeat' split at h
  all_goals cases h
  all_goals simp [conflictOut]

theorem applyBuyListing_vTick {s : DomainState} {d : Option OpData} {ts : Int}
    {uid : String} {sil : Bool} {seed : Nat} {s' : DomainState} {out : Outcome}
    (h : applyBuyListing s d ts uid sil seed = ApplyResult.ok s' out) :
    (out.conflict = true ∧ s' = s) ∨ (out.conflict = false ∧ s'.vTick = s.vTick + 1) := by
  unfold applyBuyListing at h
  try simp only at h
  repeat' split at h
  all_goals cases h
  all_goals simp [conflictOut]

theorem applyCreateListing_vTick {s : DomainState} {d : Option OpData} {ts : Int}
    {uid : String} {seed : Nat} {s' : DomainState} {out : Outcome}
    (h : applyCreateListing s d ts uid seed = ApplyResult.ok s' out) :
    (out.conflict = true ∧ s' = s) ∨ (out.conflict = false ∧ s'.vTick = s.vTick + 1) := by
  unfold applyCreateListing at h
  try simp only at h
  repeat' split at h
  all_goals cases h
  all_goals simp [conflictOut]

theorem applyToggleListing_vTick {s : DomainState} {d : Option OpData}
    {uid : String} {s' : DomainState} {out : Outcome}
    (h : applyToggleListing s d uid = ApplyResult.ok s' out) :
    (out.conflict = true ∧ s' = s) ∨ (out.conflict = false ∧ s'.vTick = s.vTick + 1) := by
  unfold applyToggleListing at h
  try simp only at h
  repeat' split at h
  all_goals cases h
  all_goals simp [conflictOut]

theorem applyDeleteListing_vTick {s : DomainState} {d : Option OpData}
    {uid : String} {s' : DomainState} {out : Outcome}
    (h : applyDeleteListing s d uid = ApplyResult.ok s' out) :
    (out.conflict = true ∧ s' = s) ∨ (out.conflict = false ∧ s'.vTick = s.vTick + 1) := by
  unfold applyDeleteListing at h
  try simp only at h
  repeat' split at h
  all_goals cases h
  all_goals simp [conflictOut]

theorem applyRegisterUser_vTick {s : DomainState} {d : Option OpData} {ts : Int}
    {sil : Bool} {seed : Nat} {s' : DomainState} {out : Outcome}
    (h : applyRegisterUser s d ts sil seed = ApplyResult.ok s' out) :
    (out.conflict = true ∧ s' = s) ∨ (out.conflict = false ∧ s'.vTick = s.vTick + 1) := by
  unfold applyRegisterUser at h
  try simp only at h
  repeat' split at h
  all_goals cases h
  all_goals simp [conflictOut]

theorem applyMorningClaim_vTick {s : DomainState} {ts : Int} {uid : String}
    {sil : Bool} {seed : Nat} {s' : DomainState} {out : Outcome}
    (h : applyMorningClaim s ts uid sil seed = ApplyResult.ok s' out) :
    (out.conflict = true ∧ s' = s) ∨ (out.conflict = false ∧ s'.vTick = s.vTick + 1) := by
  unfold applyMorningClaim at h
  try simp only at h
  repeat' split at h
  all_goals cases h
  all_goals simp [conflictOut]

theorem applyRoulette_vTick {s : DomainState} {d : Option OpData} {ts : Int}
    {uid : String} {sil : Bool} {seed : Nat} {s' : DomainState} {out : Outcome}
    (h : applyRoulette s d ts uid sil seed = ApplyResult.ok s' out) :
    (out.conflict = true ∧ s' = s) ∨ (out.conflict = false ∧ s'.vTick = s.vTick + 1) := by
  unfold applyRoulette at h
  try simp only at h
  repeat' split at h
  all_goals cases h
  all_goals simp [conflictOut]

theorem applyBuyerRequest_vTick {s : DomainState} {d : Option OpData} {ts : Int}
    {uid : String} {sil : Bool} {seed : Nat} {s' : DomainState} {out : Outcome}
    (h : applyBuyerRequest s d ts uid sil seed = ApplyResult.ok s' out) :
    (out.conflict = true ∧ s' = s) ∨ (out.conflict = false ∧ s'.vTick = s.vTick + 1) := by
  unfold applyBuyerRequest at h
  try simp only at h
  repeat' split at h
  all_goals cases h
  all_goals simp [conflictOut]

theorem applySellerRespond_vTick {s : DomainState} {d : Option OpData} {ts : Int}
    {uid : String} {sil : Bool} {seed : Nat} {s' : DomainState} {out : Outcome}
    (h : applySellerRespond s d ts uid sil seed = ApplyResult.ok s' out) :
    (out.conflict = true ∧ s' = s) ∨ (out.conflict = false ∧ s'.vTick = s.vTick + 1) := by
  unfold applySellerRespond at h
  try simp only at h
  repeat' split at h
  all_goals cases h
  all_goals simp [conflictOut]

theorem applyReportExecution_vTick {s : DomainState} {d : Option OpData} {ts : Int}
    {uid : String} {sil : Bool} {seed : Nat} {s' : DomainState} {out : Outcome}
    (h : applyReportExecution s d ts uid sil seed = ApplyResult.ok s' out) :
    (out.conflict = true ∧ s' = s) ∨ (out.conflict = false ∧ s'.vTick = s.vTick + 1) := by
  unfold applyReportExecution at h
  try simp only at h
  repeat' split at h
  all_goals cases h
  all_goals simp [conflictOut]

theorem applyBuyerConfirm_vTick {s : DomainState} {d : Option OpData} {ts : Int}
    {uid : String} {sil : Bool} {seed : Nat} {s' : DomainState} {out : Outcome}
    (h : applyBuyerConfirm s d ts uid sil seed = ApplyResult.ok s' out) :
    (out.conflict = true ∧ s' = s) ∨ (out.conflict = false ∧ s'.vTick = s.vTick + 1) := by
  unfold applyBuyerConfirm at h
  try simp only at h
  repeat' split at h
  all_goals cases h
  all_goals simp [conflictOut]

theorem applyBuyerReject_vTick {s : DomainState} {d : Option OpData} {ts : Int}
    {uid : String} {sil : Bool} {seed : Nat} {s' : DomainState} {out : Outcome}
    (h : applyBuyerReject s d ts uid sil seed = ApplyResult.ok s' out) :
    (out.conflict = true ∧ s' = s) ∨ (out.conflict = false ∧ s'.vTick = s.vTick + 1) := by
  unfold applyBuyerReject at h
  try simp only at h
  repeat' split at h
  all_goals cases h
  all_goals simp [conflictOut]

theorem applySellerRefund_vTick {s : DomainState} {d : Option OpData} {ts : Int}
    {uid : String} {sil : Bool} {seed : Nat} {s' : DomainState} {out : Outcome}
    (h : applySellerRefund s d ts uid sil seed = ApplyResult.ok s' out) :
    (out.conflict = true ∧ s' = s) ∨ (out.conflict = false ∧ s'.vTick = s.vTick + 1) := by
  unfold applySellerRefund at h
  try simp only at h
  repeat' split at h
  all_goals cases h
  all_goals simp [conflictOut]

theorem applyBuyerFinalize_vTick {s : DomainState} {d : Option OpData} {ts : Int}
    {uid : String} {sil : Bool} {seed : Nat} {s' : DomainState} {out : Outcome}
    (h : applyBuyerFinalize s d ts uid sil seed = ApplyResult.ok s' out) :
    (out.conflict = true ∧ s' = s) ∨ (out.conflict = false ∧ s'.vTick = s.vTick + 1) := by
  unfold applyBuyerFinalize at h
  try simp only at h
  repeat' split at h
  all_goals cases h
  all_goals simp [conflictOut]

theorem applySendMessage_vTick {s : DomainState} {d : Option OpData} {ts : Int}
    {seed : Nat} {s' : DomainState} {out : Outcome}
    (h : applySendMessage s d ts seed = ApplyResult.ok s' out) :
    (out.conflict = true ∧ s' = s) ∨ (out.conflict = false ∧ s'.vTick = s.vTick) := by
  unfold applySendMessage at h
  try simp only at h
  repeat' split at h
  all_goals cases h
  all_goals simp [conflictOut]

theorem applyOperation_vTick_cases {s : DomainState} {op : Operation} {seed : Nat}
    {s' : DomainState} {out : Outcome}
    (h : applyOperation s op seed = ApplyResult.ok s' out) :
    (out.conflict = true ∧ s' = s) ∨
    (out.conflict = false ∧
      (s'.vTick = s.vTick + 1 ∨ (op.type = "send_message" ∧ s'.vTick = s.vTick))) := by
  unfold applyOperation at h
  split at h <;> rename_i heq
  all_goals first
    | exact (applyTransfer_vTick h).imp id (fun hh => ⟨hh.1, Or.inl hh.2⟩)
    | exact (applyBuyListing_vTick h).imp id (fun hh => ⟨hh.1, Or.inl hh.2⟩)
    | exact (applyCreateListing_vTick h).imp id (fun hh => ⟨hh.1, Or.inl hh.2⟩)
    | exact (applyToggleListing_vTick h).imp id (fun hh => ⟨hh.1, Or.inl hh.2⟩)
    | exact (applyDeleteListing_vTick h).imp id (fun hh => ⟨hh.1, Or.inl hh.2⟩)
    | exact (applyRegisterUser_vTick h).imp id (fun hh => ⟨hh.1, Or.inl hh.2⟩)
    | exact (applyMorningClaim_vTick h).imp id (fun hh => ⟨hh.1, Or.inl hh.2⟩)
    | exact (applyRoulette_vTick h).imp id (fun hh => ⟨hh.1, Or.inl hh.2⟩)
    | exact (applyBuyerRequest_vTick h).imp id (fun hh => ⟨hh.1, Or.inl hh.2⟩)
    | exact (applySellerRespond_vTick h).imp id (fun hh => ⟨hh.1, Or.inl hh.2⟩)
    | exact (applyReportExecution_vTick h).imp id (fun hh => ⟨hh.1, Or.inl hh.2⟩)
    | exact (applyBuyerConfirm_vTick h).imp id (fun hh => ⟨hh.1, Or.inl hh.2⟩)
    | exact (applyBuyerReject_vTick h).imp id (fun hh => ⟨hh.1, Or.inl hh.2⟩)
    | exact (applySellerRefund_vTick h).imp id (fun hh => ⟨hh.1, Or.inl hh.2⟩)
    | exact (applyBuyerFinalize_vTick h).imp id (fun hh => ⟨hh.1, Or.inl hh.2⟩)
    | exact (applySendMessage_vTick h).imp id (fun hh => ⟨hh.1, Or.inr ⟨heq, hh.2⟩⟩)
    | (cases h; exact Or.inl ⟨rfl, rfl⟩)

theorem mergeStep_vTick_le (seed : Nat) (acc : MergeResult) (op : Operation) :
    acc.state.vTick ≤ (mergeStep seed acc op).state.vTick := by
  cases happ : applyOperation acc.state op seed with
  | thrown msg => simp [mergeStep, happ]
  | ok st outc =>
    rcases applyOperation_vTick_cases happ with ⟨_, h2⟩ | ⟨_, hv⟩
    · simp [mergeStep, happ, h2]
    · rcases hv with hv | ⟨_, hv⟩ <;> simp [mergeStep, happ] <;> omega

theorem mergeLoop_vTick_le :
    ∀ (ops : List Operation) (seed : Nat) (acc : MergeResult),
      acc.state.vTick ≤ (mergeLoop seed acc ops).state.vTick := by
  intro ops
  induction ops with
  | nil => intro seed acc; simp [mergeLoop]
  | cons op rest ih =>
    intro seed acc
    calc acc.state.vTick ≤ (mergeStep seed acc op).state.vTick :=
          mergeStep_vTick_le seed acc op
      _ ≤ (mergeLoop (seed + 2) (mergeStep seed acc op) rest).state.vTick :=
          ih (seed + 2) (mergeStep seed acc op)
      _ = (mergeLoop seed acc (op :: rest)).state.vTick := by simp [mergeLoop]

/-- C9 (counterexample): `applySendMessage` returns success and mutates the
domain state (it appends a notification) but does not increment `vTick`. -/
theorem c9_send_message_no_vTick_bump :
    applyOperation baseState msgOp 0 =
      ApplyResult.ok msgResultState { conflict := false } ∧
    msgResultState.vTick = baseState.vTick ∧
    msgResultState ≠ baseState := by decide

/-- C9 (amended): every operation handler except `send_message` increments
`vTick` by one when it returns success; and `vTick` never decreases across
a merge pass (`send_message` succeeds and mutates state while leaving
`vTick` unchanged). -/
theorem vTick_success_and_monotone :
    (∀ (s : DomainState) (op : Operation) (seed : Nat) (s' : DomainState)
       (out : Outcome), applyOperation s op seed = ApplyResult.ok s' out →
       out.conflict = false → op.type ≠ "send_message" →
       s'.vTick = s.vTick + 1) ∧
    (∀ (snap : Snapshot) (batch : List Operation) (now : Int),
       snap.state.vTick ≤ (mergeOperations snap batch now).state.vTick) := by
  constructor
  · intro s op seed s' out h hc hm
    rcases applyOperation_vTick_cases h with ⟨hct, _⟩ | ⟨_, hv | ⟨hmsg, _⟩⟩
    · rw [hc] at hct; cases hct
    · exact hv
    · exact absurd hmsg hm
  · intro snap batch now
    have := mergeLoop_vTick_le
      (sortByTs (unprocessedOf snap.processedOps batch)) 0 (initResult snap)
    simpa [mergeOperations, pruneResult, initResult] using this

/-- C9 (witness): the transfer `opX` succeeds and bumps `vTick` by one, and
a concrete merge pass does not decrease `vTick`. -/
theorem vTick_success_and_monotone_witness :
    c9s.vTick = baseState.vTick + 1 ∧
    baseSnap.state.vTick ≤ (mergeOperations baseSnap [opX] 10).state.vTick :=
  ⟨vTick_success_and_monotone.1 baseState opX 0 c9s c9out (by decide) (by decide)
     (by decide),
   vTick_success_and_monotone.2 baseSnap [opX] 10⟩

/-! ### Generic preservation of a state predicate across a merge pass -/

theorem mergeLoop_state_preserve (P : DomainState → Prop) (Q : Operation → Prop)
    (hstep : ∀ (s : DomainState) (op : Operation) (seed : Nat) (s' : DomainState)
       (out : Outcome), Q op → P s →
       applyOperation s op seed = ApplyResult.ok s' out → P s') :
    ∀ (ops : List Operation) (seed : Nat) (acc : MergeResult),
      (∀ op ∈ ops, Q op) → P acc.state → P (mergeLoop seed acc ops).state := by
  intro ops
  induction ops with
  | nil => intro seed acc _ hP; simpa [mergeLoop] using hP
  | cons op rest ih =>
    intro seed acc hQ hP
    have hstep' : P (mergeStep seed acc op).state := by
      cases happ : applyOperation acc.state op seed with
      | thrown msg => simpa [mergeStep, happ] using hP
      | ok st outc =>
        have := hstep acc.state op seed st outc
          (hQ op (List.mem_cons_self op rest)) hP happ
        simpa [mergeStep, happ] using this
    simpa [mergeLoop] using ih (seed + 2) (mergeStep seed acc op)
      (fun o ho => hQ o (List.mem_cons_of_mem _ ho)) hstep'

theorem mergeOperations_state_preserve (P : DomainState → Prop) (Q : Operation → Prop)
    (hstep : ∀ (s : DomainState) (op : Operation) (seed : Nat) (s' : DomainState)
       (out : Outcome), Q op → P s →
       applyOperation s op seed = ApplyResult.ok s' out → P s')
    (hnotif : ∀ (s : DomainState) (notifs : List Notification),
       P s → P { s with notifications := notifs })
    (snap : Snapshot) (batch : List Operation) (now : Int)
    (hQ : ∀ op ∈ batch, Q op) (h0 : P snap.state) :
    P (mergeOperations snap batch now).state := by
  have hsub : ∀ op ∈ sortByTs (unprocessedOf snap.processedOps batch), Q op := by
    intro op hop
    exact hQ op (List.mem_of_mem_filter ((sortByTs_perm _).mem_iff.mp hop))
  have hloop := mergeLoop_state_preserve P Q hstep
    (sortByTs (unprocessedOf snap.processedOps batch)) 0 (initResult snap) hsub h0
  exact hnotif _ _ hloop

/-! ### C3 — the listing stock invariant -/

/-- `sold` stays within `[0, qty]` and quantities are at least 1: the state
component of the stock invariant. -/
def ListingInv (s : DomainState) : Prop :=
  ∀ l ∈ s.listings, 0 ≤ l.sold ∧ l.sold ≤ l.qty ∧ 1 ≤ l.qty

/-- The batch-side condition for the stock invariant: `create_listing`
payloads carry a nonnegative quantity (0 meaning absent, defaulted to 1). -/
def QtyOk (op : Operation) : Prop := ∀ d, op.data = some d → 0 ≤ d.qty

theorem applyTransfer_listingInv {s : DomainState} {d : Option OpData} {ts : Int}
    {uid : String} {sil : Bool} {seed : Nat} {s' : DomainState} {out : Outcome}
    (h : applyTransfer s d ts uid sil seed = ApplyResult.ok s' out)
    (hinv : ListingInv s) : ListingInv s' := by
  unfold applyTransfer at h
  try simp only at h
  repeat' split at h
  all_goals cases h
  all_goals exact hinv

theorem applyRegisterUser_listingInv {s : DomainState} {d : Option OpData} {ts : Int}
    {sil : Bool} {seed : Nat} {s' : DomainState} {out : Outcome}
    (h : applyRegisterUser s d ts sil seed = ApplyResult.ok s' out)
    (hinv : ListingInv s) : ListingInv s' := by
  unfold applyRegisterUser at h
  try simp only at h
  repeat' split at h
  all_goals cases h
  all_goals exact hinv

theorem applyMorningClaim_listingInv {s : DomainState} {ts : Int} {uid : String}
    {sil : Bool} {seed : Nat} {s' : DomainState} {out : Outcome}
    (h : applyMorningClaim s ts uid sil seed = ApplyResult.ok s' out)
    (hinv : ListingInv s) : ListingInv s' := by
  unfold applyMorningClaim at h
  try simp only at h
  repeat' split at h
  all_goals cases h
  all_goals exact hinv

theorem applyRoulette_listingInv {s : DomainState} {d : Option OpData} {ts : Int}
    {uid : String} {sil : Bool} {seed : Nat} {s' : DomainState} {out : Outcome}
    (h : applyRoulette s d ts uid sil seed = ApplyResult.ok s' out)
    (hinv : ListingInv s) : ListingInv s' := by
  unfold applyRoulette at h
  try simp only at h
  repeat' split at h
  all_goals cases h
  all_goals exact hinv

theorem applyBuyerRequest_listingInv {s : DomainState} {d : Option OpData} {ts : Int}
    {uid : String} {sil : Bool} {seed : Nat} {s' : DomainState} {out : Outcome}
    (h : applyBuyerRequest s d ts uid sil seed = ApplyResult.ok s' out)
    (hinv : ListingInv s) : ListingInv s' := by
  unfold applyBuyerRequest at h
  try simp only at h
  repeat' split at h
  all_goals cases h
  all_goals exact hinv

theorem applySellerRespond_listingInv {s : DomainState} {d : Option OpData} {ts : Int}
    {uid : String} {sil : Bool} {seed : Nat} {s' : DomainState} {out : Outcome}
    (h : applySellerRespond s d ts uid sil seed = ApplyResult.ok s' out)
    (hinv : ListingInv s) : ListingInv s' := by
  unfold applySellerRespond at h
  try simp only at h
  repeat' split at h
  all_goals cases h
  all_goals exact hinv

theorem applyReportExecution_listingInv {s : DomainState} {d : Option OpData}
    {ts : Int} {uid : String} {sil : Bool} {seed : Nat} {s' : DomainState}
    {out : Outcome}
    (h : applyReportExecution s d ts uid sil seed = ApplyResult.ok s' out)
    (hinv : ListingInv s) : ListingInv s' := by
  unfold applyReportExecution at h
  try simp only at h
  repeat' split at h
  all_goals cases h
  all_goals exact hinv

theorem applyBuyerConfirm_listingInv {s : DomainState} {d : Option OpData} {ts : Int}
    {uid : String} {sil : Bool} {seed : Nat} {s' : DomainState} {out : Outcome}
    (h : applyBuyerConfirm s d ts uid sil seed = ApplyResult.ok s' out)
    (hinv : ListingInv s) : ListingInv s' := by
  unfold applyBuyerConfirm at h
  try simp only at h
  repeat' split at h
  all_goals cases h
  all_goals exact hinv

theorem applyBuyerReject_listingInv {s : DomainState} {d : Option OpData} {ts : Int}
    {uid : String} {sil : Bool} {seed : Nat} {s' : DomainState} {out : Outcome}
    (h : applyBuyerReject s d ts uid sil seed = ApplyResult.ok s' out)
    (hinv : ListingInv s) : ListingInv s' := by
  unfold applyBuyerReject at h
  try simp only at h
  repeat' split at h
  all_goals cases h
  all_goals exact hinv

theorem applySendMessage_listingInv {s : DomainState} {d : Option OpData} {ts : Int}
    {seed : Nat} {s' : DomainState} {out : Outcome}
    (h : applySendMessage s d ts seed = ApplyResult.ok s' out)
    (hinv : ListingInv s) : ListingInv s' := by
  unfold applySendMessage at h
  try simp only at h
  repeat' split at h
  all_goals cases h
  all_goals exact hinv

theorem applyToggleListing_listingInv {s : DomainState} {d : Option OpData}
    {uid : String} {s' : DomainState} {out : Outcome}
    (h : applyToggleListing s d uid = ApplyResult.ok s' out)
    (hinv : ListingInv s) : ListingInv s' := by
  unfold applyToggleListing at h
  try simp only at h
  repeat' split at h
  all_goals cases h
  all_goals try exact hinv
  intro l hl
  have hall : ∀ x ∈ s.listings, 0 ≤ x.sold ∧ x.sold ≤ x.qty ∧ 1 ≤ x.qty := hinv
  exact forall_updFirst_impl (f := fun l => { l with active := !l.active })
    (fun x _ hPx => hPx) hall l hl

theorem applyDeleteListing_listingInv {s : DomainState} {d : Option OpData}
    {uid : String} {s' : DomainState} {out : Outcome}
    (h : applyDeleteListing s d uid = ApplyResult.ok s' out)
    (hinv : ListingInv s) : ListingInv s' := by
  unfold applyDeleteListing at h
  try simp only at h
  repeat' split at h
  all_goals cases h
  all_goals try exact hinv
  intro l hl
  exact hinv l (List.mem_of_mem_eraseP hl)

theorem applyCreateListing_listingInv {s : DomainState} {d : Option OpData} {ts : Int}
    {uid : String} {seed : Nat} {s' : DomainState} {out : Outcome}
    (h : applyCreateListing s d ts uid seed = ApplyResult.ok s' out)
    (hinv : ListingInv s) (hd : ∀ dd, d = some dd → 0 ≤ dd.qty) : ListingInv s' := by
  unfold applyCreateListing at h
  cases hdd : d with
  | none => rw [hdd] at h; cases h
  | some data =>
    rw [hdd] at h
    simp only at h
    cases h
    intro l hl
    rcases List.mem_cons.mp hl with rfl | hl
    · have hq := hd data hdd
      refine ⟨le_refl 0, ?_, ?_⟩ <;> simp only [jsOrInt] <;> split <;> omega
    · exact hinv l hl

theorem restock_bounds {x : Listing} (h1 : 0 ≤ x.sold) (h2 : x.sold ≤ x.qty) :
    0 ≤ max 0 (jsOrInt x.sold 0 - 1) ∧ max 0 (jsOrInt x.sold 0 - 1) ≤ x.qty := by
  unfold jsOrInt
  constructor <;> split <;> omega

theorem applySellerRefund_listingInv {s : DomainState} {d : Option OpData} {ts : Int}
    {uid : String} {sil : Bool} {seed : Nat} {s' : DomainState} {out : Outcome}
    (h : applySellerRefund s d ts uid sil seed = ApplyResult.ok s' out)
    (hinv : ListingInv s) : ListingInv s' := by
  unfold applySellerRefund at h
  try simp only at h
  repeat' split at h
  all_goals cases h
  all_goals try exact hinv
  all_goals (
    intro l hl;
    have hall : ∀ x ∈ s.listings, 0 ≤ x.sold ∧ x.sold ≤ x.qty ∧ 1 ≤ x.qty := hinv;
    refine forall_updFirst_impl (fun x _ hPx => ?_) hall l hl;
    obtain ⟨h1, h2, h3⟩ := hPx;
    exact ⟨(restock_bounds h1 h2).1, (restock_bounds h1 h2).2, h3⟩)

theorem applyBuyerFinalize_listingInv {s : DomainState} {d : Option OpData} {ts : Int}
    {uid : String} {sil : Bool} {seed : Nat} {s' : DomainState} {out : Outcome}
    (h : applyBuyerFinalize s d ts uid sil seed = ApplyResult.ok s' out)
    (hinv : ListingInv s) : ListingInv s' := by
  unfold applyBuyerFinalize at h
  try simp only at h
  repeat' split at h
  all_goals cases h
  all_goals try exact hinv
  all_goals (
    intro l hl;
    have hall : ∀ x ∈ s.listings, 0 ≤ x.sold ∧ x.sold ≤ x.qty ∧ 1 ≤ x.qty := hinv;
    refine forall_updFirst_impl (fun x _ hPx => ?_) hall l hl;
    obtain ⟨h1, h2, h3⟩ := hPx;
    exact ⟨(restock_bounds h1 h2).1, (restock_bounds h1 h2).2, h3⟩)

theorem applyBuyListing_listingInv {s : DomainState} {d : Option OpData} {ts : Int}
    {uid : String} {sil : Bool} {seed : Nat} {s' : DomainState} {out : Outcome}
    (h : applyBuyListing s d ts uid sil seed = ApplyResult.ok s' out)
    (hinv : ListingInv s) : ListingInv s' := by
  unfold applyBuyListing at h
  cases hdd : d with
  | none => rw [hdd] at h; cases h
  | some data =>
    simp only [hdd] at h
    cases hfind : List.find? (fun l => l.id == data.listingId && l.active) s.listings with
    | none => simp only [hfind] at h; cases h; exact hinv
    | some listing =>
      simp only [hfind] at h
      cases hbuyer : findUserById s.users uid with
      | none => simp only [hbuyer] at h; cases h; exact hinv
      | some buyer =>
        simp only [hbuyer] at h
        by_cases hstock : jsOrInt listing.qty 1 - jsOrInt listing.sold 0 ≤ 0
        · rw [if_pos hstock] at h; cases h; exact hinv
        · rw [if_neg hstock] at h
          by_cases hbal : buyer.balance < listing.price
          · rw [if_pos hbal] at h; cases h; exact hinv
          · rw [if_neg hbal] at h
            by_cases hself : (listing.sellerId == uid) = true
            · rw [if_pos hself] at h; cases h; exact hinv
            · rw [if_neg hself] at h
              try simp only at h
              cases h
              have hlst := hinv listing (List.mem_of_find?_eq_some hfind)
              obtain ⟨h1, h2, h3⟩ := hlst
              intro l hl
              have hall : ∀ x ∈ s.listings,
                  0 ≤ x.sold ∧ x.sold ≤ x.qty ∧ 1 ≤ x.qty := hinv
              refine forall_updFirst_found hfind ?_ hall l hl
              have hq0 : ¬ listing.qty = 0 := by omega
              have hs0 : jsOrInt listing.sold 0 = listing.sold := jsOrInt_zero _
              have hq1 : jsOrInt listing.qty 1 = listing.qty := by
                unfold jsOrInt; rw [if_neg hq0]
              rw [hq1, hs0] at hstock
              refine ⟨?_, ?_, h3⟩
              · show (0 : Int) ≤ jsOrInt listing.sold 0 + 1
                rw [hs0]; omega
              · show jsOrInt listing.sold 0 + 1 ≤ listing.qty
                rw [hs0]; omega

theorem applyOperation_listingInv {s : DomainState} {op : Operation} {seed : Nat}
    {s' : DomainState} {out : Outcome}
    (h : applyOperation s op seed = ApplyResult.ok s' out)
    (hinv : ListingInv s) (hd : QtyOk op) : ListingInv s' := by
  unfold applyOperation at h
  split at h
  all_goals first
    | exact applyTransfer_listingInv h hinv
    | exact applyBuyListing_listingInv h hinv
    | exact applyCreateListing_listingInv h hinv hd
    | exact applyToggleListing_listingInv h hinv
    | exact applyDeleteListing_listingInv h hinv
    | exact applyRegisterUser_listingInv h hinv
    | exact applyMorningClaim_listingInv h hinv
    | exact applyRoulette_listingInv h hinv
    | exact applyBuyerRequest_listingInv h hinv
    | exact applySellerRespond_listingInv h hinv
    | exact applyReportExecution_listingInv h hinv
    | exact applyBuyerConfirm_listingInv h hinv
    | exact applyBuyerReject_listingInv h hinv
    | exact applySellerRefund_listingInv h hinv
    | exact applyBuyerFinalize_listingInv h hinv
    | exact applySendMessage_listingInv h hinv
    | (cases h; exact hinv)

/-- C3 (counterexample): `toggle_listing` reactivates a sold-out listing —
after `buyerC` buys the qty-1 listing and `sellerS` toggles it, the
reachable state has a listing with `sold == qty` and `active == true`,
refuting `active == false whenever sold == qty`. -/
theorem c3_toggle_reactivates_sold_out :
    (mergeOperations marketSnap [opBuy, opToggle] 10).state.listings =
      [{ id := "L", title := "t", price := 100, desc := "", sellerId := "s",
         active := true, ts := 0, qty := 1, sold := 1 }] := by decide

/-- C3 (amended): starting from a state whose listings satisfy
`0 ≤ sold ≤ qty` and `1 ≤ qty`, and for batches whose payload quantities
are nonnegative, every handler preserves `sold ≤ qty` — but not the second
half of the claimed invariant: `toggle_listing` can set `active == true`
on a listing with `sold == qty`. -/
theorem merge_preserves_stock_invariant (snap : Snapshot) (batch : List Operation)
    (now : Int) (h0 : ListingInv snap.state) (hq : ∀ op ∈ batch, QtyOk op) :
    ∀ l ∈ (mergeOperations snap batch now).state.listings, l.sold ≤ l.qty := by
  have h := mergeOperations_state_preserve ListingInv QtyOk
    (fun s op seed s' out hQ hP happ => applyOperation_listingInv happ hP hQ)
    (fun s notifs hP => hP) snap batch now hq h0
  intro l hl
  exact (h l hl).2.1

/-- A sufficient decidable check for `QtyOk`. -/
theorem qtyOk_of_check {op : Operation}
    (h : (match op.data with
          | some d => decide (0 ≤ d.qty)
          | none => true) = true) : QtyOk op := by
  intro d hd
  rw [hd] at h
  simpa using h

/-- The single listing of the merged buy-then-toggle market state. -/
def soldOutToggledListing : Listing :=
  { id := "L", title := "t", price := 100, desc := "", sellerId := "s",
    active := true, ts := 0, qty := 1, sold := 1 }

/-- C3 (witness): the amended stock invariant applied to the concrete
market snapshot, the buy-then-toggle batch, and the resulting listing. -/
theorem merge_preserves_stock_invariant_witness :
    soldOutToggledListing.sold ≤ soldOutToggledListing.qty :=
  merge_preserves_stock_invariant marketSnap [opBuy, opToggle] 10
    (by unfold ListingInv; decide)
    (by
      intro op hop
      rcases List.mem_cons.mp hop with rfl | hop
      · exact qtyOk_of_check (by decide)
      rcases List.mem_cons.mp hop with rfl | hop
      · exact qtyOk_of_check (by decide)
      · cases hop)
    soldOutToggledListing
    (by rw [c3_toggle_reactivates_sold_out]; exact List.mem_cons_self _ _)

/-! ### C2 — conservation of the total balance -/

/-- Total of all user balances (the house account is one of the users). -/
def sumBal (l : List User) : Int := (l.map (fun u => u.balance)).sum

theorem find?_updFirst_shape {q p : α → Bool} {f : α → α} (g : α → β)
    (hq : ∀ x, q (f x) = q x) (hg : ∀ x, g (f x) = g x) :
    ∀ l : List α, ((updFirst p f l).find? q).map g = (l.find? q).map g
  | [] => rfl
  | x :: xs => by
    by_cases hx : p x = true
    · by_cases hqx : q x = true
      · simp [updFirst, hx, List.find?_cons, hq, hqx, hg]
      · simp only [Bool.not_eq_true] at hqx
        simp [updFirst, hx, List.find?_cons, hq, hqx]
    · by_cases hqx : q x = true
      · simp [updFirst, hx, List.find?_cons, hqx]
      · simp only [Bool.not_eq_true] at hqx
        simp [updFirst, hx, List.find?_cons, hqx, find?_updFirst_shape g hq hg xs]

theorem find?_updFirst_none {q p : α → Bool} {f : α → α}
    (hq : ∀ x, q (f x) = q x) :
    ∀ l : List α, ((updFirst p f l).find? q = none) ↔ (l.find? q = none)
  | [] => Iff.rfl
  | x :: xs => by
    by_cases hx : p x = true
    · by_cases hqx : q x = true
      · simp [updFirst, hx, List.find?_cons, hq, hqx]
      · simp only [Bool.not_eq_true] at hqx
        simp [updFirst, hx, List.find?_cons, hq, hqx]
    · by_cases hqx : q x = true
      · simp [updFirst, hx, List.find?_cons, hqx]
      · simp only [Bool.not_eq_true] at hqx
        simp [updFirst, hx, List.find?_cons, hqx, find?_updFirst_none hq xs]

theorem isSome_find?_updFirst {q p : α → Bool} {f : α → α}
    (hq : ∀ x, q (f x) = q x) (l : List α) :
    ((updFirst p f l).find? q).isSome = (l.find? q).isSome := by
  cases hf : l.find? q with
  | none => simp [(find?_updFirst_none hq l).mpr hf, hf]
  | some y =>
    cases hg : (updFirst p f l).find? q with
    | none => rw [(find?_updFirst_none hq l).mp hg] at hf; cases hf
    | some z => rfl

theorem isSome_of_eq_some {o : Option α} {a : α} (h : o = some a) :
    o.isSome = true := by simp [h]

theorem isSome_of_any {p : α → Bool} {l : List α} (h : l.any p = true) :
    (l.find? p).isSome := by
  rw [List.find?_isSome]
  simpa using List.any_eq_true.mp h

/-- The user-list shape the conservation argument tracks: the house account
exists (with a fixed id), and user ids and names are duplicate-free. -/
def UsersShape (houseId : String) (l : List User) : Prop :=
  (∃ hh, l.find? (fun u => u.name == jackpotName) = some hh ∧ hh.id = houseId) ∧
  (l.map (fun u => u.id)).Nodup ∧ (l.map (fun u => u.name)).Nodup

theorem usersShape_updFirst {houseId : String} {p : User → Bool} {f : User → User}
    (hid : ∀ x, (f x).id = x.id) (hname : ∀ x, (f x).name = x.name)
    {l : List User} (h : UsersShape houseId l) :
    UsersShape houseId (updFirst p f l) := by
  obtain ⟨⟨hh, hfind, hidh⟩, hids, hnames⟩ := h
  have hq : ∀ x, ((f x).name == jackpotName) = (x.name == jackpotName) := by
    intro x; rw [hname]
  refine ⟨?_, ?_, ?_⟩
  · have hsh := find?_updFirst_shape (q := fun u => u.name == jackpotName)
      (p := p) (f := f) (fun u => u.id) hq hid l
    rw [hfind] at hsh
    cases hz : (updFirst p f l).find? (fun u => u.name == jackpotName) with
    | none => rw [hz] at hsh; simp at hsh
    | some z =>
      rw [hz] at hsh
      simp only [Option.map_some'] at hsh
      exact ⟨z, rfl, by rw [Option.some.inj hsh, hidh]⟩
  · rw [map_updFirst _ hid]; exact hids
  · rw [map_updFirst _ hname]; exact hnames

theorem sumBal_credit {p : User → Bool} {d : Int} {l : List User}
    (h : (l.find? p).isSome) : sumBal (credit p d l) = sumBal l + d := by
  unfold credit sumBal
  rw [sum_map_updFirst]
  cases hf : l.find? p with
  | none => simp [hf] at h
  | some y => simp [hf]

theorem any_credit_id {a : String} {p : User → Bool} {d : Int} (l : List User) :
    (credit p d l).any (fun u => u.id == a) = l.any (fun u => u.id == a) :=
  any_updFirst (q := fun (u : User) => u.id == a) (p := p)
    (f := fun u => { u with balance := u.balance + d }) (fun _ => rfl) l

theorem isSome_find?_credit_id {a : String} {p : User → Bool} {d : Int}
    (l : List User) :
    ((credit p d l).find? (fun u => u.id == a)).isSome =
      (l.find? (fun u => u.id == a)).isSome :=
  isSome_find?_updFirst (q := fun (u : User) => u.id == a) (p := p)
    (f := fun u => { u with balance := u.balance + d }) (fun _ => rfl) l

theorem isSome_find?_credit_name {a : String} {p : User → Bool} {d : Int}
    (l : List User) :
    ((credit p d l).find? (fun u => u.name == a)).isSome =
      (l.find? (fun u => u.name == a)).isSome :=
  isSome_find?_updFirst (q := fun (u : User) => u.name == a) (p := p)
    (f := fun u => { u with balance := u.balance + d }) (fun _ => rfl) l

theorem usersShape_credit {houseId : String} {p : User → Bool} {d : Int}
    {l : List User} (h : UsersShape houseId l) :
    UsersShape houseId (credit p d l) :=
  usersShape_updFirst (f := fun u => { u with balance := u.balance + d })
    (fun _ => rfl) (fun _ => rfl) h

theorem sumBal_setZero {q : User → Bool} {l : List User} {z : User}
    (hf : l.find? q = some z) :
    sumBal (updFirst q (fun u => { u with balance := 0 }) l) =
      sumBal l - z.balance := by
  unfold sumBal
  rw [sum_map_updFirst, hf]
  simp
  omega

/-- The state predicate for conservation: house/ids/names shape, each
listing's seller exists among the users, and the balance total is `c`. -/
def Conserve (houseId : String) (c : Int) (s : DomainState) : Prop :=
  UsersShape houseId s.users ∧
  (∀ l ∈ s.listings, (s.users.any (fun u => u.id == l.sellerId)) = true) ∧
  sumBal s.users = c

/-- The batch condition for conservation: only the three pure-exchange
operation types, and no roulette spin issued by the house account. -/
def ConserveOps (houseId : String) (op : Operation) : Prop :=
  (op.type = "transfer" ∨ op.type = "buy_listing" ∨ op.type = "roulette") ∧
  (op.type = "roulette" → op.userId ≠ houseId)

theorem applyTransfer_conserve {houseId : String} {c : Int} {s : DomainState}
    {d : Option OpData} {ts : Int} {uid : String} {sil : Bool} {seed : Nat}
    {s' : DomainState} {out : Outcome}
    (h : applyTransfer s d ts uid sil seed = ApplyResult.ok s' out)
    (hP : Conserve houseId c s) : Conserve houseId c s' := by
  unfold applyTransfer at h
  cases hdd : d with
  | none => rw [hdd] at h; cases h
  | some data =>
    simp only [hdd] at h
    cases hfrom : findUserById s.users uid with
    | none => simp only [hfrom] at h; cases h; exact hP
    | some fromU =>
      cases hto : findUserById s.users data.toId with
      | none => simp only [hfrom, hto] at h; cases h; exact hP
      | some toU =>
        simp only [hfrom, hto] at h
        by_cases hbal : fromU.balance < data.amount
        · rw [if_pos hbal] at h; cases h; exact hP
        · rw [if_neg hbal] at h
          try simp only at h
          cases h
          obtain ⟨hshape, hsell, hsum⟩ := hP
          refine ⟨?_, ?_, ?_⟩
          · exact usersShape_credit (usersShape_credit hshape)
          · intro l hl
            show (credit (fun u => u.id == data.toId) data.amount
              (credit (fun u => u.id == uid) (-data.amount) s.users)).any
                (fun u => u.id == l.sellerId) = true
            rw [any_credit_id, any_credit_id]
            exact hsell l hl
          · have h1 : sumBal (credit (fun u => u.id == uid) (-data.amount) s.users) =
                sumBal s.users + (-data.amount) :=
              sumBal_credit (isSome_of_eq_some hfrom)
            have hto' : ((credit (fun u => u.id == uid) (-data.amount)
                s.users).find? (fun u => u.id == data.toId)).isSome := by
              rw [isSome_find?_credit_id]
              exact isSome_of_eq_some hto
            have h2 := sumBal_credit (d := data.amount) hto'
            show sumBal (credit (fun u => u.id == data.toId) data.amount
              (credit (fun u => u.id == uid) (-data.amount) s.users)) = c
            omega

theorem applyBuyListing_conserve {houseId : String} {c : Int} {s : DomainState}
    {d : Option OpData} {ts : Int} {uid : String} {sil : Bool} {seed : Nat}
    {s' : DomainState} {out : Outcome}
    (h : applyBuyListing s d ts uid sil seed = ApplyResult.ok s' out)
    (hP : Conserve houseId c s) : Conserve houseId c s' := by
  unfold applyBuyListing at h
  cases hdd : d with
  | none => rw [hdd] at h; cases h
  | some data =>
    simp only [hdd] at h
    cases hfind : List.find? (fun l => l.id == data.listingId && l.active) s.listings with
    | none => simp only [hfind] at h; cases h; exact hP
    | some listing =>
      simp only [hfind] at h
      cases hbuyer : findUserById s.users uid with
      | none => simp only [hbuyer] at h; cases h; exact hP
      | some buyer =>
        simp only [hbuyer] at h
        by_cases hstock : jsOrInt listing.qty 1 - jsOrInt listing.sold 0 ≤ 0
        · rw [if_pos hstock] at h; cases h; exact hP
        · rw [if_neg hstock] at h
          by_cases hbal : buyer.balance < listing.price
          · rw [if_pos hbal] at h; cases h; exact hP
          · rw [if_neg hbal] at h
            by_cases hself : (listing.sellerId == uid) = true
            · rw [if_pos hself] at h; cases h; exact hP
            · rw [if_neg hself] at h
              try simp only at h
              cases h
              obtain ⟨hshape, hsell, hsum⟩ := hP
              have hseller_any : (s.users.any
                  (fun u => u.id == listing.sellerId)) = true :=
                hsell listing (List.mem_of_find?_eq_some hfind)
              refine ⟨?_, ?_, ?_⟩
              · exact usersShape_credit (usersShape_credit
                  (usersShape_credit hshape))
              · intro l hl
                have hall : ∀ x ∈ s.listings,
                    ((credit (fun u => u.name == jackpotName) (listing.price / 10)
                      (credit (fun u => u.id == listing.sellerId)
                        (listing.price - listing.price / 10)
                        (credit (fun u => u.id == uid) (-listing.price)
                          s.users))).any (fun u => u.id == x.sellerId)) = true := by
                  intro x hx
                  rw [any_credit_id, any_credit_id, any_credit_id]
                  exact hsell x hx
                refine forall_updFirst_impl (fun x _ hPx => ?_) hall l hl
                exact hPx
              · have h1 : sumBal (credit (fun u => u.id == uid)
                    (-listing.price) s.users) = sumBal s.users + (-listing.price) :=
                  sumBal_credit (isSome_of_eq_some hbuyer)
                have hseller' : ((credit (fun u => u.id == uid) (-listing.price)
                    s.users).find? (fun u => u.id == listing.sellerId)).isSome := by
                  rw [isSome_find?_credit_id]
                  exact isSome_of_any hseller_any
                have h2 := sumBal_credit
                  (d := listing.price - listing.price / 10) hseller'
                have hhouse' : ((credit (fun u => u.id == listing.sellerId)
                    (listing.price - listing.price / 10)
                    (credit (fun u => u.id == uid) (-listing.price)
                      s.users)).find? (fun u => u.name == jackpotName)).isSome := by
                  rw [isSome_find?_credit_name, isSome_find?_credit_name]
                  obtain ⟨⟨hh, hfindh, _⟩, _, _⟩ := hshape
                  exact isSome_of_eq_some hfindh
                have h3 := sumBal_credit (d := listing.price / 10) hhouse'
                show sumBal (credit (fun u => u.name == jackpotName)
                  (listing.price / 10) (credit (fun u => u.id == listing.sellerId)
                    (listing.price - listing.price / 10)
                    (credit (fun u => u.id == uid) (-listing.price)
                      s.users))) = c
                omega

theorem any_setZero_id {a : String} {r : User → Bool} (l : List User) :
    ((updFirst r (fun u => { u with balance := 0 }) l).any
      (fun u => u.id == a)) = l.any (fun u => u.id == a) :=
  any_updFirst (q := fun (u : User) => u.id == a) (p := r)
    (f := fun u => { u with balance := 0 }) (fun _ => rfl) l

theorem applyRoulette_conserve {houseId : String} {c : Int} {s : DomainState}
    {d : Option OpData} {ts : Int} {uid : String} {sil : Bool} {seed : Nat}
    {s' : DomainState} {out : Outcome}
    (h : applyRoulette s d ts uid sil seed = ApplyResult.ok s' out)
    (hP : Conserve houseId c s) (hne : uid ≠ houseId) : Conserve houseId c s' := by
  unfold applyRoulette at h
  cases hdd : d with
  | none => rw [hdd] at h; cases h
  | some data =>
    simp only [hdd] at h
    cases huser : findUserById s.users uid with
    | none => simp only [huser] at h; cases h; exact hP
    | some user =>
      cases hjack : findJackpot s.users with
      | none => simp only [huser, hjack] at h; cases h; exact hP
      | some jackpot =>
        simp only [huser, hjack] at h
        by_cases hbal : user.balance < 100
        · rw [if_pos hbal] at h; cases h; exact hP
        · rw [if_neg hbal] at h
          try simp only at h
          obtain ⟨hshape, hsell, hsum⟩ := hP
          have hsum1 : sumBal (credit (fun u => u.id == uid) (-100) s.users) =
              sumBal s.users + (-100) := sumBal_credit (isSome_of_eq_some huser)
          have hjack1 : ((credit (fun u => u.id == uid) (-100)
              s.users).find? (fun u => u.name == jackpotName)).isSome := by
            rw [isSome_find?_credit_name]
            exact isSome_of_eq_some hjack
          have hsum2 : sumBal (credit (fun u => u.name == jackpotName) 100
              (credit (fun u => u.id == uid) (-100) s.users)) =
              sumBal (credit (fun u => u.id == uid) (-100) s.users) + 100 :=
            sumBal_credit hjack1
          have hshape2 : UsersShape houseId
              (credit (fun u => u.name == jackpotName) 100
                (credit (fun u => u.id == uid) (-100) s.users)) :=
            usersShape_credit (usersShape_credit hshape)
          have hjack2 : ((credit (fun u => u.name == jackpotName) 100
              (credit (fun u => u.id == uid) (-100)
                s.users)).find? (fun u => u.name == jackpotName)).isSome := by
            rw [isSome_find?_credit_name, isSome_find?_credit_name]
            exact isSome_of_eq_some hjack
          have huser2 : ((credit (fun u => u.name == jackpotName) 100
              (credit (fun u => u.id == uid) (-100)
                s.users)).find? (fun u => u.id == uid)).isSome := by
            rw [isSome_find?_credit_id, isSome_find?_credit_id]
            exact isSome_of_eq_some huser
          have hsellAny : ∀ x ∈ s.listings,
              ((credit (fun u => u.name == jackpotName) 100
                (credit (fun u => u.id == uid) (-100) s.users)).any
                  (fun u => u.id == x.sellerId)) = true := by
            intro x hx
            rw [any_credit_id, any_credit_id]
            exact hsell x hx
          by_cases hroll : data.roll < (1 : Rat) / 100
          · rw [if_pos hroll] at h
            by_cases hpay : 0 < balOf (credit (fun u => u.name == jackpotName) 100
                (credit (fun u => u.id == uid) (-100) s.users))
                (fun u => u.name == jackpotName)
            · rw [if_pos hpay] at h
              cases h
              obtain ⟨⟨h2, hfind2, hid2⟩, hids2, hnames2⟩ := hshape2
              have hbal2 : balOf (credit (fun u => u.name == jackpotName) 100
                  (credit (fun u => u.id == uid) (-100) s.users))
                  (fun u => u.name == jackpotName) = h2.balance := by
                unfold balOf; rw [hfind2]; rfl
              have hname2 : h2.name = jackpotName := by
                have hb2 := List.find?_some hfind2
                simpa using hb2
              have hmem2 := List.mem_of_find?_eq_some hfind2
              have hdisj : ∀ x ∈ credit (fun u => u.name == jackpotName) 100
                  (credit (fun u => u.id == uid) (-100) s.users),
                  (x.id == uid) = true → (x.name == jackpotName) = false := by
                intro x hx hxid
                cases hb : (x.name == jackpotName) with
                | false => rfl
                | true =>
                  exfalso
                  have hxname : x.name = jackpotName := eq_of_beq hb
                  have hxeq : x = h2 :=
                    List.inj_on_of_nodup_map hnames2 hx hmem2
                      (by rw [hxname, hname2])
                  have : uid = houseId := by
                    rw [← eq_of_beq hxid, hxeq, hid2]
                  exact hne this
              have hfind3 : ((credit (fun u => u.id == uid)
                  (balOf (credit (fun u => u.name == jackpotName) 100
                    (credit (fun u => u.id == uid) (-100) s.users))
                    (fun u => u.name == jackpotName))
                  (credit (fun u => u.name == jackpotName) 100
                    (credit (fun u => u.id == uid) (-100)
                      s.users))).find? (fun u => u.name == jackpotName)) =
                  some h2 := by
                rw [show ((credit (fun u => u.id == uid)
                    (balOf (credit (fun u => u.name == jackpotName) 100
                      (credit (fun u => u.id == uid) (-100) s.users))
                      (fun u => u.name == jackpotName))
                    (credit (fun u => u.name == jackpotName) 100
                      (credit (fun u => u.id == uid) (-100)
                        s.users))).find? (fun u => u.name == jackpotName)) =
                    ((credit (fun u => u.name == jackpotName) 100
                      (credit (fun u => u.id == uid) (-100)
                        s.users)).find? (fun u => u.name == jackpotName)) from
                  find?_updFirst_of_disjoint hdisj (fun _ => rfl)]
                exact hfind2
              have hsum3 : sumBal (credit (fun u => u.id == uid)
                  (balOf (credit (fun u => u.name == jackpotName) 100
                    (credit (fun u => u.id == uid) (-100) s.users))
                    (fun u => u.name == jackpotName))
                  (credit (fun u => u.name == jackpotName) 100
                    (credit (fun u => u.id == uid) (-100) s.users))) =
                  sumBal (credit (fun u => u.name == jackpotName) 100
                    (credit (fun u => u.id == uid) (-100) s.users)) +
                  balOf (credit (fun u => u.name == jackpotName) 100
                    (credit (fun u => u.id == uid) (-100) s.users))
                    (fun u => u.name == jackpotName) :=
                sumBal_credit huser2
              have hsum4 := sumBal_setZero hfind3
              refine ⟨?_, ?_, ?_⟩
              · exact usersShape_updFirst
                  (f := fun (u : User) => { u with balance := 0 })
                  (fun _ => rfl) (fun _ => rfl)
                  (usersShape_credit ⟨⟨h2, hfind2, hid2⟩, hids2, hnames2⟩)
              · intro l hl
                show ((updFirst (fun (u : User) => u.name == jackpotName)
                  (fun u => { u with balance := 0 }) _).any
                    (fun u => u.id == l.sellerId)) = true
                rw [any_setZero_id, any_credit_id]
                exact hsellAny l hl
              · show sumBal (updFirst (fun (u : User) => u.name == jackpotName)
                  (fun u => { u with balance := 0 }) _) = c
                rw [hsum4, hsum3]
                omega
            · rw [if_neg hpay] at h
              cases h
              exact ⟨hshape2, hsellAny, by
                show sumBal (credit (fun u => u.name == jackpotName) 100
                  (credit (fun u => u.id == uid) (-100) s.users)) = c
                omega⟩
          · rw [if_neg hroll] at h
            by_cases hpay : 0 < roulettePayout data.roll
                (balOf (credit (fun u => u.name == jackpotName) 100
                  (credit (fun u => u.id == uid) (-100) s.users))
                  (fun u => u.name == jackpotName))
            · rw [if_pos hpay] at h
              cases h
              have hjack3 : ((credit (fun u => u.id == uid)
                  (roulettePayout data.roll
                    (balOf (credit (fun u => u.name == jackpotName) 100
                      (credit (fun u => u.id == uid) (-100) s.users))
                      (fun u => u.name == jackpotName)))
                  (credit (fun u => u.name == jackpotName) 100
                    (credit (fun u => u.id == uid) (-100)
                      s.users))).find? (fun u => u.name == jackpotName)).isSome := by
                rw [isSome_find?_credit_name]
                exact hjack2
              have hsum3 := sumBal_credit (d := roulettePayout data.roll
                  (balOf (credit (fun u => u.name == jackpotName) 100
                    (credit (fun u => u.id == uid) (-100) s.users))
                    (fun u => u.name == jackpotName))) huser2
              have hsum4 := sumBal_credit (d := -(roulettePayout data.roll
                  (balOf (credit (fun u => u.name == jackpotName) 100
                    (credit (fun u => u.id == uid) (-100) s.users))
                    (fun u => u.name == jackpotName)))) hjack3
              refine ⟨?_, ?_, ?_⟩
              · exact usersShape_credit (usersShape_credit hshape2)
              · intro l hl
                show ((credit (fun u => u.name == jackpotName) _ _).any
                  (fun u => u.id == l.sellerId)) = true
                rw [any_credit_id, any_credit_id]
                exact hsellAny l hl
              · show sumBal (credit (fun u => u.name == jackpotName) _ _) = c
                rw [hsum4, hsum3]
                omega
            · rw [if_neg hpay] at h
              cases h
              exact ⟨hshape2, hsellAny, by
                show sumBal (credit (fun u => u.name == jackpotName) 100
                  (credit (fun u => u.id == uid) (-100) s.users)) = c
                omega⟩

theorem applyOperation_conserve {houseId : String} {c : Int} {s : DomainState}
    {op : Operation} {seed : Nat} {s' : DomainState} {out : Outcome}
    (h : applyOperation s op seed = ApplyResult.ok s' out)
    (hQ : ConserveOps houseId op) (hP : Conserve houseId c s) :
    Conserve houseId c s' := by
  obtain ⟨ht, hr⟩ := hQ
  rcases ht with ht | ht | ht
  · simp only [applyOperation, ht] at h
    exact applyTransfer_conserve h hP
  · simp only [applyOperation, ht] at h
    exact applyBuyListing_conserve h hP
  · simp only [applyOperation, ht] at h
    exact applyRoulette_conserve h hP (hr ht)

/-- A two-user-plus-house domain state. -/
def houseState : DomainState :=
  { users := [userA, userB, houseUser], txs := [], listings := [], rights := [],
    notifications := [], vTick := 0 }

/-- A snapshot holding `houseState` with empty logs. -/
def houseSnap : Snapshot :=
  { state := houseState, processedOps := [], conflicts := [] }

/-- C2 (counterexample): with no house account in the state, `buy_listing`
destroys the 10% fee — the sum of all user balances changes across the
merge pass, refuting conservation as stated. -/
theorem c2_fee_vanishes_without_house :
    sumBal (mergeOperations marketSnap [opBuy] 10).state.users ≠
      sumBal marketState.users := by decide

/-- C2 (amended): for any sequence of transfer/buy_listing/roulette
operations, the sum of all user balances (house included) is invariant
across a merge pass, provided the house account exists, user ids and names
are duplicate-free, every listing's seller exists among the users, and no
roulette operation is issued by the house account itself. -/
theorem mergeOperations_conservation (snap : Snapshot) (batch : List Operation)
    (now : Int) (house : User)
    (hhouse : findJackpot snap.state.users = some house)
    (hids : (snap.state.users.map (fun u => u.id)).Nodup)
    (hnames : (snap.state.users.map (fun u => u.name)).Nodup)
    (hsellers : ∀ l ∈ snap.state.listings,
      (snap.state.users.any (fun u => u.id == l.sellerId)) = true)
    (htypes : ∀ op ∈ batch,
      op.type = "transfer" ∨ op.type = "buy_listing" ∨ op.type = "roulette")
    (hnoself : ∀ op ∈ batch, op.type = "roulette" → op.userId ≠ house.id) :
    sumBal (mergeOperations snap batch now).state.users =
      sumBal snap.state.users := by
  have h := mergeOperations_state_preserve
    (Conserve house.id (sumBal snap.state.users)) (ConserveOps house.id)
    (fun s op seed s' out hQ hP happ => applyOperation_conserve happ hQ hP)
    (fun s notifs hP => hP)
    snap batch now
    (fun op hop => ⟨htypes op hop, hnoself op hop⟩)
    ⟨⟨⟨house, hhouse, rfl⟩, hids, hnames⟩, hsellers, rfl⟩
  exact h.2.2

/-- C2 (witness): conservation across a concrete transfer with the house
account present. -/
theorem mergeOperations_conservation_witness :
    sumBal (mergeOperations houseSnap [opX] 10).state.users =
      sumBal houseSnap.state.users :=
  mergeOperations_conservation houseSnap [opX] 10 houseUser (by decide)
    (by decide) (by decide) (by decide) (by decide) (by decide)

/-! ### C7 — the buy_listing contract -/

theorem find?_q_updFirst_p_of_ne {q p : α → Bool} {f : α → α}
    (hq : ∀ x, q (f x) = q x) :
    ∀ {l : List α}, (∀ w, l.find? p = some w → q w = false) →
      (updFirst p f l).find? q = l.find? q := by
  intro l
  induction l with
  | nil => intro _; rfl
  | cons x xs ih =>
    intro hw
    by_cases hx : p x = true
    · have hqx : q x = false := hw x (by rw [List.find?_cons_of_pos _ hx])
      simp [updFirst, hx, List.find?_cons, hq, hqx]
    · simp only [updFirst, hx, if_false]
      by_cases hqx : q x = true
      · simp [List.find?_cons, hqx]
      · simp only [Bool.not_eq_true] at hqx
        have hxs : ∀ w, xs.find? p = some w → q w = false := by
          intro w hfw
          exact hw w (by rw [List.find?_cons_of_neg _ hx]; exact hfw)
        simp [List.find?_cons, hqx, ih hxs]

theorem find?_id_credit_by_id {a b : String} {d : Int} (hne : b ≠ a)
    (l : List User) :
    ((credit (fun u => u.id == b) d l).find? (fun u => u.id == a)) =
      l.find? (fun u => u.id == a) := by
  refine find?_q_updFirst_p_of_ne (q := fun (u : User) => u.id == a)
    (f := fun (u : User) => { u with balance := u.balance + d })
    (fun _ => rfl) ?_
  intro w hfw
  have hwid : w.id = b := by
    have := List.find?_some hfw
    simpa using this
  simp [hwid, hne]

theorem find?_name_credit_by_id {b : String} {d : Int} {l : List User}
    (hw : ∀ w, l.find? (fun u => u.id == b) = some w → w.name ≠ jackpotName) :
    ((credit (fun u => u.id == b) d l).find? (fun u => u.name == jackpotName)) =
      l.find? (fun u => u.name == jackpotName) := by
  refine find?_q_updFirst_p_of_ne (q := fun (u : User) => u.name == jackpotName)
    (f := fun (u : User) => { u with balance := u.balance + d })
    (fun _ => rfl) ?_
  intro w hfw
  have := hw w hfw
  simpa using this

theorem find?_id_credit_by_name {a : String} {d : Int} {l : List User}
    (hw : ∀ w, l.find? (fun u => u.name == jackpotName) = some w → w.id ≠ a) :
    ((credit (fun u => u.name == jackpotName) d l).find? (fun u => u.id == a)) =
      l.find? (fun u => u.id == a) := by
  refine find?_q_updFirst_p_of_ne (q := fun (u : User) => u.id == a)
    (f := fun (u : User) => { u with balance := u.balance + d })
    (fun _ => rfl) ?_
  intro w hfw
  have := hw w hfw
  simpa using this

theorem find?_id_credit_self {a : String} {d : Int} (l : List User) :
    ((credit (fun u => u.id == a) d l).find? (fun u => u.id == a)) =
      (l.find? (fun u => u.id == a)).map
        (fun u => { u with balance := u.balance + d }) :=
  find?_updFirst_self (p := fun (u : User) => u.id == a)
    (f := fun u => { u with balance := u.balance + d }) (fun _ => rfl) l

theorem find?_name_credit_self {d : Int} (l : List User) :
    ((credit (fun u => u.name == jackpotName) d l).find?
      (fun u => u.name == jackpotName)) =
      (l.find? (fun u => u.name == jackpotName)).map
        (fun u => { u with balance := u.balance + d }) :=
  find?_updFirst_self (p := fun (u : User) => u.name == jackpotName)
    (f := fun u => { u with balance := u.balance + d }) (fun _ => rfl) l

/-- C7: under the stated preconditions (active listing in stock, buyer
present with sufficient balance and distinct from the seller, and — as the
claim's definite references presuppose — an existing seller and a house
account distinct from both), `buy_listing` succeeds: it debits the buyer
by the full price, credits the seller with price minus the 10% fee
`⌊price/10⌋`, credits that fee to the house account, increments `sold`
(deactivating the listing when `sold` reaches `qty`), and creates a Right
in status `"owned"`. -/
theorem applyOperation_buy_listing_spec (s : DomainState) (op : Operation)
    (d : OpData) (seed : Nat) (listing : Listing) (buyer seller house : User)
    (hop : op.type = "buy_listing") (hdata : op.data = some d)
    (hfind : s.listings.find? (fun l => l.id == d.listingId && l.active) =
      some listing)
    (hbuyer : findUserById s.users op.userId = some buyer)
    (hstock : 0 < jsOrInt listing.qty 1 - jsOrInt listing.sold 0)
    (hbal : listing.price ≤ buyer.balance)
    (hself : listing.sellerId ≠ op.userId)
    (hseller : findUserById s.users listing.sellerId = some seller)
    (hhouse : findJackpot s.users = some house)
    (hhb : house.id ≠ op.userId) (hhs : house.id ≠ listing.sellerId)
    (hbn : buyer.name ≠ jackpotName) (hsn : seller.name ≠ jackpotName) :
    ∃ s' outc, applyOperation s op seed = ApplyResult.ok s' outc ∧
      outc.conflict = false ∧
      findUserById s'.users op.userId =
        some { buyer with balance := buyer.balance - listing.price } ∧
      findUserById s'.users listing.sellerId =
        some { seller with balance :=
          seller.balance + (listing.price - listing.price / 10) } ∧
      findJackpot s'.users =
        some { house with balance := house.balance + listing.price / 10 } ∧
      outc.updatedListing =
        some { listing with
               sold := jsOrInt listing.sold 0 + 1,
               active := if listing.qty ≤ jsOrInt listing.sold 0 + 1 then false
                         else listing.active } ∧
      (∃ r, outc.createdRight = some r ∧ r.status = "owned" ∧
        s'.rights = r :: s.rights) := by
  have hbuyer' : s.users.find? (fun u => u.id == op.userId) = some buyer := hbuyer
  have hseller' : s.users.find? (fun u => u.id == listing.sellerId) =
    some seller := hseller
  have hhouse' : s.users.find? (fun u => u.name == jackpotName) =
    some house := hhouse
  have happ : applyOperation s op seed =
      applyBuyListing s op.data op.timestamp op.userId op.silent seed := by
    unfold applyOperation
    rw [hop]
    rfl
  rw [hdata] at happ
  unfold applyBuyListing at happ
  simp only [hfind, hbuyer] at happ
  rw [if_neg (by omega : ¬ jsOrInt listing.qty 1 - jsOrInt listing.sold 0 ≤ 0),
    if_neg (by omega : ¬ buyer.balance < listing.price),
    if_neg (by simpa using hself : ¬ (listing.sellerId == op.userId) = true)]
    at happ
  try simp only at happ
  -- lookups after the first credit (buyer debit)
  have f1b : ((credit (fun u => u.id == op.userId) (-listing.price)
      s.users).find? (fun u => u.id == op.userId)) =
      some { buyer with balance := buyer.balance + -listing.price } := by
    rw [find?_id_credit_self, hbuyer']
    rfl
  have f1s : ((credit (fun u => u.id == op.userId) (-listing.price)
      s.users).find? (fun u => u.id == listing.sellerId)) = some seller := by
    rw [find?_id_credit_by_id (Ne.symm hself), hseller']
  have f1n : ((credit (fun u => u.id == op.userId) (-listing.price)
      s.users).find? (fun u => u.name == jackpotName)) = some house := by
    rw [find?_name_credit_by_id (fun w hfw => by
      rw [hbuyer'] at hfw
      cases hfw
      exact hbn), hhouse']
  -- lookups after the second credit (seller payment)
  have f2b : ((credit (fun u => u.id == listing.sellerId)
      (listing.price - listing.price / 10)
      (credit (fun u => u.id == op.userId) (-listing.price)
        s.users)).find? (fun u => u.id == op.userId)) =
      some { buyer with balance := buyer.balance + -listing.price } := by
    rw [find?_id_credit_by_id hself, f1b]
  have f2s : ((credit (fun u => u.id == listing.sellerId)
      (listing.price - listing.price / 10)
      (credit (fun u => u.id == op.userId) (-listing.price)
        s.users)).find? (fun u => u.id == listing.sellerId)) =
      some { seller with balance :=
        seller.balance + (listing.price - listing.price / 10) } := by
    rw [find?_id_credit_self, f1s]
    rfl
  have f2n : ((credit (fun u => u.id == listing.sellerId)
      (listing.price - listing.price / 10)
      (credit (fun u => u.id == op.userId) (-listing.price)
        s.users)).find? (fun u => u.name == jackpotName)) = some house := by
    rw [find?_name_credit_by_id (fun w hfw => by
      rw [f1s] at hfw
      cases hfw
      exact hsn), f1n]
  -- lookups after the third credit (house fee)
  have f3b : ((credit (fun u => u.name == jackpotName) (listing.price / 10)
      (credit (fun u => u.id == listing.sellerId)
        (listing.price - listing.price / 10)
        (credit (fun u => u.id == op.userId) (-listing.price)
          s.users))).find? (fun u => u.id == op.userId)) =
      some { buyer with balance := buyer.balance + -listing.price } := by
    rw [find?_id_credit_by_name (fun w hfw => by
      rw [f2n] at hfw
      cases hfw
      exact hhb), f2b]
  have f3s : ((credit (fun u => u.name == jackpotName) (listing.price / 10)
      (credit (fun u => u.id == listing.sellerId)
        (listing.price - listing.price / 10)
        (credit (fun u => u.id == op.userId) (-listing.price)
          s.users))).find? (fun u => u.id == listing.sellerId)) =
      some { seller with balance :=
        seller.balance + (listing.price - listing.price / 10) } := by
    rw [find?_id_credit_by_name (fun w hfw => by
      rw [f2n] at hfw
      cases hfw
      exact hhs), f2s]
  have f3n : ((credit (fun u => u.name == jackpotName) (listing.price / 10)
      (credit (fun u => u.id == listing.sellerId)
        (listing.price - listing.price / 10)
        (credit (fun u => u.id == op.userId) (-listing.price)
          s.users))).find? (fun u => u.name == jackpotName)) =
      some { house with balance := house.balance + listing.price / 10 } := by
    rw [find?_name_credit_self, f2n]
    rfl
  refine ⟨_, _, happ, rfl, ?_, ?_, ?_, rfl, ⟨_, rfl, rfl, rfl⟩⟩
  · show ((credit (fun u => u.name == jackpotName) (listing.price / 10)
      (credit (fun u => u.id == listing.sellerId)
        (listing.price - listing.price / 10)
        (credit (fun u => u.id == op.userId) (-listing.price)
          s.users))).find? (fun u => u.id == op.userId)) = _
    rw [f3b]
    simp [sub_eq_add_neg]
  · exact f3s
  · exact f3n

/-- A marketplace state with seller, buyer and house account. -/
def houseMarketState : DomainState :=
  { users := [sellerS, buyerC, houseUser], txs := [], listings := [listingL],
    rights := [], notifications := [], vTick := 0 }

/-- C7 (witness): the buy contract instantiated on a concrete market with
seller, buyer and house account. -/
theorem applyOperation_buy_listing_spec_witness :
    ∃ s' outc, applyOperation houseMarketState opBuy 0 = ApplyResult.ok s' outc ∧
      outc.conflict = false ∧
      findUserById s'.users opBuy.userId =
        some { buyerC with balance := buyerC.balance - listingL.price } ∧
      findUserById s'.users listingL.sellerId =
        some { sellerS with
               balance := sellerS.balance +
                 (listingL.price - listingL.price / 10) } ∧
      findJackpot s'.users =
        some { houseUser with
               balance := houseUser.balance + listingL.price / 10 } ∧
      outc.updatedListing =
        some { listingL with
               sold := jsOrInt listingL.sold 0 + 1,
               active := if listingL.qty ≤ jsOrInt listingL.sold 0 + 1 then false
                         else listingL.active } ∧
      (∃ r, outc.createdRight = some r ∧ r.status = "owned" ∧
        s'.rights = r :: houseMarketState.rights) :=
  applyOperation_buy_listing_spec houseMarketState opBuy { listingId := "L" } 0
    listingL buyerC sellerS houseUser (by decide) (by decide) (by decide)
    (by decide) (by decide) (by decide) (by decide) (by decide) (by decide)
    (by decide) (by decide) (by decide) (by decide)

/-! ### C4 — non-negative balances -/

/-- The state component of the non-negativity invariant: balances and
streak counters are nonnegative, and so are listing prices. -/
def NonNeg (s : DomainState) : Prop :=
  (∀ u ∈ s.users, 0 ≤ u.balance ∧ 0 ≤ u.streakCount) ∧
  (∀ l ∈ s.listings, 0 ≤ l.price)

/-- The batch condition for non-negativity: payload amounts and prices are
nonnegative (the source never validates them). -/
def AmountsOk (op : Operation) : Prop :=
  ∀ d, op.data = some d → 0 ≤ d.amount ∧ 0 ≤ d.price

/-- Users-only nonnegativity, for list-level reasoning. -/
def UB (l : List User) : Prop := ∀ u ∈ l, 0 ≤ u.balance ∧ 0 ≤ u.streakCount

theorem ub_credit_nonneg {p : User → Bool} {d : Int} {l : List User}
    (hd : 0 ≤ d) (h : UB l) : UB (credit p d l) := by
  intro u hu
  refine forall_updFirst_impl (fun x _ hx => ?_) h u hu
  exact ⟨by have := hx.1; show 0 ≤ x.balance + d; omega, hx.2⟩

theorem ub_debit {p : User → Bool} {d : Int} {l : List User} {y : User}
    (hf : l.find? p = some y) (hyd : 0 ≤ y.balance + d) (h : UB l) :
    UB (credit p d l) := by
  intro u hu
  refine forall_updFirst_found hf ⟨hyd, ?_⟩ h u hu
  exact (h y (List.mem_of_find?_eq_some hf)).2

theorem ub_setZero {q : User → Bool} {l : List User} (h : UB l) :
    UB (updFirst q (fun u => { u with balance := 0 }) l) := by
  intro u hu
  refine forall_updFirst_impl (fun x _ hx => ?_) h u hu
  exact ⟨le_refl 0, hx.2⟩

theorem roulettePayout_le_or (roll : Rat) (b : Int) :
    roulettePayout roll b ≤ b ∨ roulettePayout roll b ≤ 0 := by
  unfold roulettePayout
  repeat' split
  all_goals omega

theorem applyBuyerRequest_nonneg {s : DomainState} {d : Option OpData} {ts : Int}
    {uid : String} {sil : Bool} {seed : Nat} {s' : DomainState} {out : Outcome}
    (h : applyBuyerRequest s d ts uid sil seed = ApplyResult.ok s' out)
    (hinv : NonNeg s) : NonNeg s' := by
  unfold applyBuyerRequest at h
  try simp only at h
  repeat' split at h
  all_goals cases h
  all_goals exact hinv

theorem applySellerRespond_nonneg {s : DomainState} {d : Option OpData} {ts : Int}
    {uid : String} {sil : Bool} {seed : Nat} {s' : DomainState} {out : Outcome}
    (h : applySellerRespond s d ts uid sil seed = ApplyResult.ok s' out)
    (hinv : NonNeg s) : NonNeg s' := by
  unfold applySellerRespond at h
  try simp only at h
  repeat' split at h
  all_goals cases h
  all_goals exact hinv

theorem applyReportExecution_nonneg {s : DomainState} {d : Option OpData}
    {ts : Int} {uid : String} {sil : Bool} {seed : Nat} {s' : DomainState}
    {out : Outcome}
    (h : applyReportExecution s d ts uid sil seed = ApplyResult.ok s' out)
    (hinv : NonNeg s) : NonNeg s' := by
  unfold applyReportExecution at h
  try simp only at h
  repeat' split at h
  all_goals cases h
  all_goals exact hinv

theorem applyBuyerConfirm_nonneg {s : DomainState} {d : Option OpData} {ts : Int}
    {uid : String} {sil : Bool} {seed : Nat} {s' : DomainState} {out : Outcome}
    (h : applyBuyerConfirm s d ts uid sil seed = ApplyResult.ok s' out)
    (hinv : NonNeg s) : NonNeg s' := by
  unfold applyBuyerConfirm at h
  try simp only at h
  repeat' split at h
  all_goals cases h
  all_goals exact hinv

theorem applyBuyerReject_nonneg {s : DomainState} {d : Option OpData} {ts : Int}
    {uid : String} {sil : Bool} {seed : Nat} {s' : DomainState} {out : Outcome}
    (h : applyBuyerReject s d ts uid sil seed = ApplyResult.ok s' out)
    (hinv : NonNeg s) : NonNeg s' := by
  unfold applyBuyerReject at h
  try simp only at h
  repeat' split at h
  all_goals cases h
  all_goals exact hinv

theorem applySendMessage_nonneg {s : DomainState} {d : Option OpData} {ts : Int}
    {seed : Nat} {s' : DomainState} {out : Outcome}
    (h : applySendMessage s d ts seed = ApplyResult.ok s' out)
    (hinv : NonNeg s) : NonNeg s' := by
  unfold applySendMessage at h
  try simp only at h
  repeat' split at h
  all_goals cases h
  all_goals exact hinv

theorem applyToggleListing_nonneg {s : DomainState} {d : Option OpData}
    {uid : String} {s' : DomainState} {out : Outcome}
    (h : applyToggleListing s d uid = ApplyResult.ok s' out)
    (hinv : NonNeg s) : NonNeg s' := by
  unfold applyToggleListing at h
  try simp only at h
  repeat' split at h
  all_goals cases h
  all_goals try exact hinv
  refine ⟨hinv.1, ?_⟩
  intro l hl
  have hall : ∀ x ∈ s.listings, (0 : Int) ≤ x.price := hinv.2
  exact forall_updFirst_impl
    (P := fun (x : Listing) => (0 : Int) ≤ x.price)
    (f := fun l => { l with active := !l.active })
    (fun x _ hx => hx) hall l hl

theorem applyDeleteListing_nonneg {s : DomainState} {d : Option OpData}
    {uid : String} {s' : DomainState} {out : Outcome}
    (h : applyDeleteListing s d uid = ApplyResult.ok s' out)
    (hinv : NonNeg s) : NonNeg s' := by
  unfold applyDeleteListing at h
  try simp only at h
  repeat' split at h
  all_goals cases h
  all_goals try exact hinv
  exact ⟨hinv.1, fun l hl => hinv.2 l (List.mem_of_mem_eraseP hl)⟩

theorem applyCreateListing_nonneg {s : DomainState} {d : Option OpData} {ts : Int}
    {uid : String} {seed : Nat} {s' : DomainState} {out : Outcome}
    (h : applyCreateListing s d ts uid seed = ApplyResult.ok s' out)
    (hinv : NonNeg s) (hd : ∀ dd, d = some dd → 0 ≤ dd.price) : NonNeg s' := by
  unfold applyCreateListing at h
  cases hdd : d with
  | none => rw [hdd] at h; cases h
  | some data =>
    rw [hdd] at h
    try simp only at h
    cases h
    refine ⟨hinv.1, ?_⟩
    intro l hl
    rcases List.mem_cons.mp hl with rfl | hl
    · exact hd data hdd
    · exact hinv.2 l hl

theorem applyRegisterUser_nonneg {s : DomainState} {d : Option OpData} {ts : Int}
    {sil : Bool} {seed : Nat} {s' : DomainState} {out : Outcome}
    (h : applyRegisterUser s d ts sil seed = ApplyResult.ok s' out)
    (hinv : NonNeg s) : NonNeg s' := by
  unfold applyRegisterUser at h
  try simp only at h
  repeat' split at h
  all_goals cases h
  all_goals try exact hinv
  all_goals refine ⟨?_, hinv.2⟩
  all_goals intro u hu
  all_goals rcases List.mem_append.mp hu with hu | hu
  all_goals first
    | exact hinv.1 u hu
    | (rcases List.mem_singleton.mp hu with rfl
       exact ⟨show (0 : Int) ≤ 10000 by decide, show (0 : Int) ≤ 0 by decide⟩)

theorem applyTransfer_nonneg {s : DomainState} {d : Option OpData} {ts : Int}
    {uid : String} {sil : Bool} {seed : Nat} {s' : DomainState} {out : Outcome}
    (h : applyTransfer s d ts uid sil seed = ApplyResult.ok s' out)
    (hinv : NonNeg s) (hd : ∀ dd, d = some dd → 0 ≤ dd.amount) : NonNeg s' := by
  unfold applyTransfer at h
  cases hdd : d with
  | none => rw [hdd] at h; cases h
  | some data =>
    simp only [hdd] at h
    cases hfrom : findUserById s.users uid with
    | none => simp only [hfrom] at h; cases h; exact hinv
    | some fromU =>
      cases hto : findUserById s.users data.toId with
      | none => simp only [hfrom, hto] at h; cases h; exact hinv
      | some toU =>
        simp only [hfrom, hto] at h
        by_cases hbal : fromU.balance < data.amount
        · rw [if_pos hbal] at h; cases h; exact hinv
        · rw [if_neg hbal] at h
          try simp only at h
          cases h
          refine ⟨?_, hinv.2⟩
          exact ub_credit_nonneg (hd data hdd)
            (ub_debit hfrom (by omega) hinv.1)

theorem applyBuyListing_nonneg {s : DomainState} {d : Option OpData} {ts : Int}
    {uid : String} {sil : Bool} {seed : Nat} {s' : DomainState} {out : Outcome}
    (h : applyBuyListing s d ts uid sil seed = ApplyResult.ok s' out)
    (hinv : NonNeg s) : NonNeg s' := by
  unfold applyBuyListing at h
  cases hdd : d with
  | none => rw [hdd] at h; cases h
  | some data =>
    simp only [hdd] at h
    cases hfind : List.find? (fun l => l.id == data.listingId && l.active)
        s.listings with
    | none => simp only [hfind] at h; cases h; exact hinv
    | some listing =>
      simp only [hfind] at h
      cases hbuyer : findUserById s.users uid with
      | none => simp only [hbuyer] at h; cases h; exact hinv
      | some buyer =>
        simp only [hbuyer] at h
        by_cases hstock : jsOrInt listing.qty 1 - jsOrInt listing.sold 0 ≤ 0
        · rw [if_pos hstock] at h; cases h; exact hinv
        · rw [if_neg hstock] at h
          by_cases hbal : buyer.balance < listing.price
          · rw [if_pos hbal] at h; cases h; exact hinv
          · rw [if_neg hbal] at h
            by_cases hself : (listing.sellerId == uid) = true
            · rw [if_pos hself] at h; cases h; exact hinv
            · rw [if_neg hself] at h
              try simp only at h
              cases h
              have hprice : 0 ≤ listing.price :=
                hinv.2 listing (List.mem_of_find?_eq_some hfind)
              have hfee1 : 0 ≤ listing.price / 10 :=
                Int.ediv_nonneg hprice (by omega)
              have hfee2 : listing.price / 10 ≤ listing.price :=
                Int.ediv_le_self 10 hprice
              refine ⟨?_, ?_⟩
              · exact ub_credit_nonneg (by omega)
                  (ub_credit_nonneg (by omega)
                    (ub_debit hbuyer (by omega) hinv.1))
              · intro l hl
                have hall : ∀ x ∈ s.listings, (0 : Int) ≤ x.price := hinv.2
                exact forall_updFirst_impl
                  (P := fun (x : Listing) => (0 : Int) ≤ x.price)
                  (f := fun l => { l with
                    sold := jsOrInt l.sold 0 + 1,
                    active := if l.qty ≤ jsOrInt l.sold 0 + 1 then false
                      else l.active })
                  (fun x _ hx => hx) hall l hl

theorem applyMorningClaim_nonneg {s : DomainState} {ts : Int} {uid : String}
    {sil : Bool} {seed : Nat} {s' : DomainState} {out : Outcome}
    (h : applyMorningClaim s ts uid sil seed = ApplyResult.ok s' out)
    (hinv : NonNeg s) : NonNeg s' := by
  unfold applyMorningClaim at h
  cases huser : findUserById s.users uid with
  | none => simp only [huser] at h; cases h; exact hinv
  | some user =>
    simp only [huser] at h
    have hu := hinv.1 user (List.mem_of_find?_eq_some huser)
    try simp only at h
    repeat' split at h
    all_goals cases h
    all_goals try exact hinv
    all_goals (
      refine ⟨?_, hinv.2⟩;
      intro u hu2;
      refine forall_updFirst_found huser ⟨?_, ?_⟩ hinv.1 u hu2 <;>
        (simp only [jsOrInt]; repeat' split) <;> omega)

theorem applySellerRefund_nonneg {s : DomainState} {d : Option OpData} {ts : Int}
    {uid : String} {sil : Bool} {seed : Nat} {s' : DomainState} {out : Outcome}
    (h : applySellerRefund s d ts uid sil seed = ApplyResult.ok s' out)
    (hinv : NonNeg s) : NonNeg s' := by
  unfold applySellerRefund at h
  cases hdd : d with
  | none => rw [hdd] at h; cases h
  | some data =>
    simp only [hdd] at h
    cases hright : List.find? (fun x => x.id == data.rightId) s.rights with
    | none => simp only [hright] at h; cases h; exact hinv
    | some r =>
      simp only [hright] at h
      by_cases h1 : (r.sellerId != uid) = true
      · rw [if_pos h1] at h; cases h; exact hinv
      · rw [if_neg h1] at h
        by_cases h2 : (!(r.status == "buyer_rejected" ||
            r.status == "seller_cancel_requested" ||
            r.status == "seller_reported")) = true
        · rw [if_pos h2] at h; cases h; exact hinv
        · rw [if_neg h2] at h
          cases hlst : List.find? (fun l => l.id == r.listingId) s.listings with
          | none => simp only [hlst] at h; cases h; exact hinv
          | some listing =>
            simp only [hlst] at h
            cases hseller : findUserById s.users r.sellerId with
            | none => simp only [hseller] at h; cases h; exact hinv
            | some seller =>
              simp only [hseller] at h
              cases hbuyer : findUserById s.users r.buyerId with
              | none => simp only [hbuyer] at h; cases h; exact hinv
              | some buyer =>
                simp only [hbuyer] at h
                try simp only at h
                by_cases hsb : seller.balance <
                    (if 0 < data.amount then
                      min data.amount (jsOrInt listing.price 0)
                    else jsOrInt listing.price 0)
                · rw [if_pos hsb] at h; cases h; exact hinv
                · rw [if_neg hsb] at h
                  cases h
                  have hprice : 0 ≤ listing.price :=
                    hinv.2 listing (List.mem_of_find?_eq_some hlst)
                  have hr0 : 0 ≤ (if 0 < data.amount then
                      min data.amount (jsOrInt listing.price 0)
                    else jsOrInt listing.price 0) := by
                    simp only [jsOrInt]
                    repeat' split
                    all_goals omega
                  refine ⟨?_, ?_⟩
                  · exact ub_credit_nonneg hr0
                      (ub_debit hseller (by omega) hinv.1)
                  · intro l hl
                    have hall : ∀ x ∈ s.listings, (0 : Int) ≤ x.price := hinv.2
                    exact forall_updFirst_impl
                      (P := fun (x : Listing) => (0 : Int) ≤ x.price)
                      (f := fun y => { y with
                        sold := max 0 (jsOrInt y.sold 0 - 1),
                        active := if max 0 (jsOrInt y.sold 0 - 1) < y.qty
                          then true else y.active })
                      (fun x _ hx => hx) hall l hl

theorem applyBuyerFinalize_nonneg {s : DomainState} {d : Option OpData} {ts : Int}
    {uid : String} {sil : Bool} {seed : Nat} {s' : DomainState} {out : Outcome}
    (h : applyBuyerFinalize s d ts uid sil seed = ApplyResult.ok s' out)
    (hinv : NonNeg s) : NonNeg s' := by
  unfold applyBuyerFinalize at h
  cases hdd : d with
  | none => rw [hdd] at h; cases h
  | some data =>
    simp only [hdd] at h
    cases hright : List.find? (fun x => x.id == data.rightId) s.rights with
    | none => simp only [hright] at h; cases h; exact hinv
    | some r =>
      simp only [hright] at h
      by_cases h1 : (r.buyerId != uid) = true
      · rw [if_pos h1] at h; cases h; exact hinv
      · rw [if_neg h1] at h
        by_cases h2 : (r.status == "seller_executed") = true
        · rw [if_pos h2] at h
          try simp only at h
          cases h
          exact hinv
        · rw [if_neg h2] at h
          by_cases h3 : (r.status == "seller_cancel_requested") = true
          · rw [if_pos h3] at h
            cases hlst : List.find? (fun l => l.id == r.listingId) s.listings with
            | none => simp only [hlst] at h; cases h; exact hinv
            | some l0 =>
              simp only [hlst] at h
              cases hseller : findUserById s.users r.sellerId with
              | none => simp only [hseller] at h; cases h; exact hinv
              | some seller =>
                simp only [hseller] at h
                cases hbuyer : findUserById s.users r.buyerId with
                | none => simp only [hbuyer] at h; cases h; exact hinv
                | some buyer =>
                  simp only [hbuyer] at h
                  try simp only at h
                  by_cases hsb : seller.balance < 9 * l0.price / 10
                  · rw [if_pos hsb] at h; cases h; exact hinv
                  · rw [if_neg hsb] at h
                    cases h
                    have hprice : 0 ≤ l0.price :=
                      hinv.2 l0 (List.mem_of_find?_eq_some hlst)
                    have hr0 : 0 ≤ 9 * l0.price / 10 :=
                      Int.ediv_nonneg (by omega) (by omega)
                    refine ⟨?_, ?_⟩
                    · exact ub_credit_nonneg hr0
                        (ub_debit hseller (by omega) hinv.1)
                    · intro l hl
                      have hall : ∀ x ∈ s.listings, (0 : Int) ≤ x.price := hinv.2
                      exact forall_updFirst_impl
                        (P := fun (x : Listing) => (0 : Int) ≤ x.price)
                        (f := fun y => { y with
                          sold := max 0 (jsOrInt y.sold 0 - 1),
                          active := if max 0 (jsOrInt y.sold 0 - 1) < y.qty
                            then true else y.active })
                        (fun x _ hx => hx) hall l hl
          · rw [if_neg h3] at h; cases h; exact hinv

theorem balOf_of_find {p : User → Bool} {l : List User} {z : User}
    (hf : l.find? p = some z) : balOf l p = z.balance := by
  unfold balOf
  rw [hf]
  rfl

theorem applyRoulette_nonneg {s : DomainState} {d : Option OpData} {ts : Int}
    {uid : String} {sil : Bool} {seed : Nat} {s' : DomainState} {out : Outcome}
    (h : applyRoulette s d ts uid sil seed = ApplyResult.ok s' out)
    (hinv : NonNeg s) : NonNeg s' := by
  unfold applyRoulette at h
  cases hdd : d with
  | none => rw [hdd] at h; cases h
  | some data =>
    simp only [hdd] at h
    cases huser : findUserById s.users uid with
    | none => simp only [huser] at h; cases h; exact hinv
    | some user =>
      cases hjack : findJackpot s.users with
      | none => simp only [huser, hjack] at h; cases h; exact hinv
      | some jackpot =>
        simp only [huser, hjack] at h
        by_cases hbal : user.balance < 100
        · rw [if_pos hbal] at h; cases h; exact hinv
        · rw [if_neg hbal] at h
          try simp only at h
          have hU2 : UB (credit (fun u => u.name == jackpotName) 100
              (credit (fun u => u.id == uid) (-100) s.users)) :=
            ub_credit_nonneg (by omega)
              (ub_debit huser (by omega) hinv.1)
          have hjack2 : ((credit (fun u => u.name == jackpotName) 100
              (credit (fun u => u.id == uid) (-100)
                s.users)).find? (fun u => u.name == jackpotName)).isSome := by
            rw [isSome_find?_credit_name, isSome_find?_credit_name]
            exact isSome_of_eq_some hjack
          by_cases hroll : data.roll < (1 : Rat) / 100
          · rw [if_pos hroll] at h
            by_cases hpay : 0 < balOf (credit (fun u => u.name == jackpotName) 100
                (credit (fun u => u.id == uid) (-100) s.users))
                (fun u => u.name == jackpotName)
            · rw [if_pos hpay] at h
              cases h
              exact ⟨ub_setZero (ub_credit_nonneg (by omega) hU2), hinv.2⟩
            · rw [if_neg hpay] at h
              cases h
              exact ⟨hU2, hinv.2⟩
          · rw [if_neg hroll] at h
            by_cases hpay : 0 < roulettePayout data.roll
                (balOf (credit (fun u => u.name == jackpotName) 100
                  (credit (fun u => u.id == uid) (-100) s.users))
                  (fun u => u.name == jackpotName))
            · rw [if_pos hpay] at h
              cases h
              have hU3 : UB (credit (fun u => u.id == uid)
                  (roulettePayout data.roll
                    (balOf (credit (fun u => u.name == jackpotName) 100
                      (credit (fun u => u.id == uid) (-100) s.users))
                      (fun u => u.name == jackpotName)))
                  (credit (fun u => u.name == jackpotName) 100
                    (credit (fun u => u.id == uid) (-100) s.users))) :=
                ub_credit_nonneg (by omega) hU2
              have hjack3 : ((credit (fun u => u.id == uid)
                  (roulettePayout data.roll
                    (balOf (credit (fun u => u.name == jackpotName) 100
                      (credit (fun u => u.id == uid) (-100) s.users))
                      (fun u => u.name == jackpotName)))
                  (credit (fun u => u.name == jackpotName) 100
                    (credit (fun u => u.id == uid) (-100)
                      s.users))).find? (fun u => u.name == jackpotName)).isSome := by
                rw [isSome_find?_credit_name]
                exact hjack2
              obtain ⟨z, hz⟩ := Option.isSome_iff_exists.mp hjack3
              have hz3 : balOf (credit (fun u => u.id == uid)
                  (roulettePayout data.roll
                    (balOf (credit (fun u => u.name == jackpotName) 100
                      (credit (fun u => u.id == uid) (-100) s.users))
                      (fun u => u.name == jackpotName)))
                  (credit (fun u => u.name == jackpotName) 100
                    (credit (fun u => u.id == uid) (-100) s.users)))
                  (fun u => u.name == jackpotName) = z.balance :=
                balOf_of_find hz
              have hmono : balOf (credit (fun u => u.name == jackpotName) 100
                  (credit (fun u => u.id == uid) (-100) s.users))
                  (fun u => u.name == jackpotName) ≤
                  balOf (credit (fun u => u.id == uid)
                    (roulettePayout data.roll
                      (balOf (credit (fun u => u.name == jackpotName) 100
                        (credit (fun u => u.id == uid) (-100) s.users))
                        (fun u => u.name == jackpotName)))
                    (credit (fun u => u.name == jackpotName) 100
                      (credit (fun u => u.id == uid) (-100) s.users)))
                  (fun u => u.name == jackpotName) :=
                balOf_le_updFirst
                  (q := fun (u : User) => u.name == jackpotName)
                  (p := fun (u : User) => u.id == uid)
                  (f := fun (u : User) => { u with
                    balance := u.balance + roulettePayout data.roll
                      (balOf (credit (fun u => u.name == jackpotName) 100
                        (credit (fun u => u.id == uid) (-100) s.users))
                        (fun u => u.name == jackpotName)) })
                  (fun _ => rfl)
                  (fun x => le_add_of_nonneg_right (le_of_lt hpay)) _
              have hple := roulettePayout_le_or data.roll
                (balOf (credit (fun u => u.name == jackpotName) 100
                  (credit (fun u => u.id == uid) (-100) s.users))
                  (fun u => u.name == jackpotName))
              refine ⟨ub_debit hz (by omega) hU3, hinv.2⟩
            · rw [if_neg hpay] at h
              cases h
              exact ⟨hU2, hinv.2⟩

theorem applyOperation_nonneg {s : DomainState} {op : Operation} {seed : Nat}
    {s' : DomainState} {out : Outcome}
    (h : applyOperation s op seed = ApplyResult.ok s' out)
    (hinv : NonNeg s) (hd : AmountsOk op) : NonNeg s' := by
  unfold applyOperation at h
  split at h
  all_goals first
    | exact applyTransfer_nonneg h hinv (fun dd hdd => (hd dd hdd).1)
    | exact applyCreateListing_nonneg h hinv (fun dd hdd => (hd dd hdd).2)
    | exact applyBuyListing_nonneg h hinv
    | exact applyToggleListing_nonneg h hinv
    | exact applyDeleteListing_nonneg h hinv
    | exact applyRegisterUser_nonneg h hinv
    | exact applyMorningClaim_nonneg h hinv
    | exact applyRoulette_nonneg h hinv
    | exact applyBuyerRequest_nonneg h hinv
    | exact applySellerRespond_nonneg h hinv
    | exact applyReportExecution_nonneg h hinv
    | exact applyBuyerConfirm_nonneg h hinv
    | exact applyBuyerReject_nonneg h hinv
    | exact applySellerRefund_nonneg h hinv
    | exact applyBuyerFinalize_nonneg h hinv
    | exact applySendMessage_nonneg h hinv
    | (cases h; exact hinv)

/-- A sufficient decidable check for `AmountsOk`. -/
theorem amountsOk_of_check {op : Operation}
    (h : (match op.data with
          | some d => decide (0 ≤ d.amount) && decide (0 ≤ d.price)
          | none => true) = true) : AmountsOk op := by
  intro d hd
  rw [hd] at h
  simpa using h

/-- A transfer of minus 500 from `userA` to `userB`: the client controls the
amount and the handler only checks `balance < amount`. -/
def opNeg : Operation :=
  { id := "n", type := "transfer", data := some { toId := "b", amount := -500 },
    timestamp := 1, userId := "a" }

/-- C4, counterexample: starting from a state where every balance is
nonnegative, merging a single transfer whose client-supplied amount is
negative (`opNeg`, amount -500) produces a user with a negative balance.
The guard `from.balance < amount` passes vacuously for a negative amount,
and the recipient is credited the negative amount. -/
theorem c4_negative_amount_overdraft :
    (∀ u ∈ baseSnap.state.users, 0 ≤ u.balance) ∧
    ((mergeOperations baseSnap [opNeg] 10).state.users.any
      (fun u => decide (u.balance < 0))) = true := by
  constructor
  · decide
  · decide

/-- C4, amended: if every user balance and streak counter and every listing
price in the snapshot is nonnegative, and every payload amount and price in
the batch is nonnegative, then every user balance after the merge pass is
nonnegative. The claim's unconditional form is false: no handler validates
the sign of client-supplied amounts (`c4_negative_amount_overdraft`). -/
theorem mergeOperations_balances_nonneg (snap : Snapshot) (batch : List Operation)
    (now : Int) (h0 : NonNeg snap.state)
    (hq : ∀ op ∈ batch, AmountsOk op) :
    ∀ u ∈ (mergeOperations snap batch now).state.users, 0 ≤ u.balance := by
  have h := mergeOperations_state_preserve NonNeg AmountsOk
    (fun s op seed s' out hQ hP happ => applyOperation_nonneg happ hP hQ)
    (fun s notifs hP => hP) snap batch now hq h0
  intro u hu
  exact (h.1 u hu).1

/-- The recipient record after merging the single transfer `opX`. -/
def c4User : User := { userB with balance := 100 }

theorem mergeOperations_balances_nonneg_witness : 0 ≤ c4User.balance :=
  mergeOperations_balances_nonneg baseSnap [opX] 10
    (by unfold NonNeg; decide)
    (by
      intro op hop
      rcases List.mem_cons.mp hop with rfl | hop
      · exact amountsOk_of_check (by decide)
      · cases hop)
    c4User (by decide)

end Worker
